import Mathlib

/-!
Verification development for the Conference Seating Simulation engine
(`src/unnamed/part_003`, with `src/simulation.js` a near-duplicate).

The JavaScript source is shallowly embedded: JS numbers that stay integral
(grid coordinates, counters, config bounds) become `Int`, fractional
arithmetic (weights, probabilities, `Math.random()` draws) becomes `Rat`,
`Math.floor` becomes `Int.floor`.  Randomness is modelled by an explicit
stream `f : Nat → Rat` of `Math.random()` results together with a cursor
index that every random-consuming function threads through, advancing it
exactly once per `Math.random()` call of the source (including the calls
made only for debug logging, and including the fact that `weightedChoice`
draws no random number when the weight total is zero).

The grid is a `List (List Nat)` of cell-type codes.  Out-of-range reads
yield the code 0, which behaves like JS `undefined` for every comparison
the source performs; out-of-range writes are no-ops (JS would either throw
into an enclosing `catch` or create a non-index property, neither of which
affects any in-range cell).
-/

namespace ConfSeating

/-- Grid cell type codes, exactly the `CELL_TYPES` constants of the source. -/
def EMPTY : Nat := 0
def SEAT : Nat := 1
def CORRIDOR : Nat := 2
def GATE : Nat := 3
def SEATED_AGENT : Nat := 9
def STANDING : Nat := 8

/-- `SIM_CONSTANTS.SEAT_ROWS.START` -/
def SEAT_ROWS_START : Int := 6
/-- `SIM_CONSTANTS.SEAT_ROWS.END` -/
def SEAT_ROWS_END : Int := 14
/-- `SIM_CONSTANTS.BACK_ROWS.START` -/
def BACK_ROWS_START : Int := 14
/-- `SIM_CONSTANTS.GATE_POSITIONS` -/
def GATE_POSITIONS : List Int := [10, 34, 58]
/-- `SIM_CONSTANTS.PATH_ROW_RANGE.START` -/
def PATH_ROW_RANGE_START : Int := 16
/-- `SIM_CONSTANTS.DEFAULT_ROW_THRESHOLD` -/
def DEFAULT_ROW_THRESHOLD : Int := 5

/-!
The library's `Rat.add`, `Rat.sub`, `Rat.mul` and `Rat.inv` are sealed
against unfolding, which would block kernel evaluation of the embedding on
concrete inputs.  The embedding therefore computes with the following
reducible clones, each proved equal to the sealed operation so that the
theorems can use ordinary field arithmetic.
-/

/-- Rational addition, reducible clone of `· + ·`. -/
def qAdd (a b : ℚ) : ℚ :=
  mkRat (a.num * b.den + b.num * a.den) (a.den * b.den)

/-- Rational subtraction, reducible clone of `· - ·`. -/
def qSub (a b : ℚ) : ℚ :=
  mkRat (a.num * b.den - b.num * a.den) (a.den * b.den)

/-- Rational multiplication, reducible clone of `· * ·`. -/
def qMul (a b : ℚ) : ℚ := mkRat (a.num * b.num) (a.den * b.den)

/-- Rational division, reducible clone of `· / ·`. -/
def qDiv (a b : ℚ) : ℚ := Rat.divInt (a.num * b.den) (a.den * b.num)

/-- Rational natural power, reducible clone of `· ^ ·`. -/
def qPow (a : ℚ) : Nat → ℚ
  | 0 => 1
  | n + 1 => qMul (qPow a n) a

/-- JS `reduce((a, b) => a + b, 0)`, reducible clone of `List.sum`. -/
def qSum (l : List ℚ) : ℚ := l.foldl qAdd 0

/-- Ascending run of integers `a, a+1, …, b` (empty when `b < a`);
models JS `for` loops and `Array.from({length: …})` index ranges. -/
def rangeZ (a b : Int) : List Int :=
  (List.range (b + 1 - a).toNat).map (fun k => a + (k : Int))

/-- Descending run `a, a-1, …, b` (empty when `a < b`). -/
def rangeZDown (a b : Int) : List Int :=
  (List.range (a + 1 - b).toNat).map (fun k => a - (k : Int))

/-- JS array read `l[i]` with default for a missing index. -/
def listGetD {α : Type} (l : List α) (i : Int) (d : α) : α :=
  if 0 ≤ i then l.getD i.toNat d else d

/-- JS array element assignment `l[i] = a`, a no-op outside the index range. -/
def listSetZ {α : Type} (l : List α) (i : Int) (a : α) : List α :=
  if 0 ≤ i then l.set i.toNat a else l

/-- The simulation grid: rows of cell-type codes. -/
abbrev Grid := List (List Nat)

/-- `grid[r][c]`, with 0 (≠ every cell constant the source compares against)
standing in for JS `undefined` on an out-of-range access. -/
def gridGet (g : Grid) (r c : Int) : Nat :=
  listGetD (listGetD g r []) c 0

/-- `grid[r][c] = v`; out-of-range writes leave the grid unchanged. -/
def gridSet (g : Grid) (r c : Int) (v : Nat) : Grid :=
  if 0 ≤ r then g.set r.toNat (listSetZ (listGetD g r []) c v) else g

/-- JS `Math.floor(a / b)` on integral operands. -/
def jsFloorDiv (a b : Int) : Int := ⌊qDiv (a : ℚ) (b : ℚ)⌋

/-- `Utils.isValidPosition` -/
def isValidPosition (row col maxRow maxCol : Int) : Bool :=
  0 ≤ row && row < maxRow && 0 ≤ col && col < maxCol

/-- The subtraction loop of `Utils.weightedChoice`: subtract weights in list
order, return the first item driving the running remainder ≤ 0; if the loop
runs past the weights (or never trips), return the last item of the original
list, which `lastE` carries. -/
def weightedGo {α : Type} (lastE : α) : List α → List ℚ → ℚ → α
  | [], _, _ => lastE
  | _ :: _, [], _ => lastE
  | x :: xs, w :: ws, r =>
    if qSub r w ≤ 0 then x else weightedGo lastE xs ws (qSub r w)

/-- `Utils.weightedChoice`, with `u` the `Math.random()` result in `[0,1)`.
Returns `none` exactly where JS returns `undefined` (empty `items`). -/
def weightedChoice {α : Type} (items : List α) (weights : List ℚ) (u : ℚ) :
    Option α :=
  if qSum weights = 0 then items.head?
  else
    match items.getLast? with
    | none => none
    | some lastE => some (weightedGo lastE items weights (qMul u (qSum weights)))

/-- Random-stream-threaded `weightedChoice`: the source draws `Math.random()`
only after the zero-total early return, so the cursor advances only then. -/
def weightedChoiceR {α : Type} (items : List α) (weights : List ℚ)
    (f : Nat → ℚ) (i : Nat) : Option α × Nat :=
  if qSum weights = 0 then (items.head?, i)
  else (weightedChoice items weights (f i), i + 1)

/-- `GridBuilder.generateSeatBlocks`: block `i` (0-based) is the closed
column range starting at `corridorWidth + i*(blockWidth + corridorWidth)`. -/
def generateSeatBlocks (cols numBlocks corridorWidth : Int) :
    List (Int × Int) :=
  let totalSeat := cols - (numBlocks + 1) * corridorWidth
  let blockWidth := jsFloorDiv totalSeat numBlocks
  (List.range numBlocks.toNat).map (fun (i : Nat) =>
    let start := corridorWidth + (i : Int) * (blockWidth + corridorWidth)
    (start, start + blockWidth - 1))

/-- `GridBuilder.generateCorridorSegments`: left margin segment, then one
segment after each block, columns clipped to the grid width, empty segments
dropped. -/
def generateCorridorSegments (cols : Int) (seatBlocks : List (Int × Int))
    (corridorWidth : Int) : List (List Int) :=
  let leftMargin := rangeZ 0 (corridorWidth - 1)
  let trailing := seatBlocks.foldl (fun segs blk =>
    let e := blk.2
    let seg := (rangeZ (e + 1) (e + corridorWidth)).filter (fun c => c < cols)
    if seg.isEmpty then segs else segs ++ [seg]) []
  leftMargin :: trailing

/-- `PathfindingEngine.computeSimplePath`: the four path legs the source
emits.  Leg 3 is emitted only when `row0 > r1` (the source walks that leg
exclusively upward). -/
def computeSimplePath (spawn : Int × Int) (corridor : Int)
    (seat : Int × Int) (row0 : Int) : List (Int × Int) :=
  let r := spawn.1
  let c := spawn.2
  let r1 := seat.1
  let c1 := seat.2
  let leg1 : List (Int × Int) :=
    if r > row0 then (rangeZDown (r - 1) row0).map (fun rr => (rr, c))
    else if r < row0 then (rangeZ (r + 1) row0).map (fun rr => (rr, c))
    else []
  let leg2 : List (Int × Int) :=
    if corridor > c then (rangeZ (c + 1) corridor).map (fun cc => (row0, cc))
    else if corridor < c then
      (rangeZDown (c - 1) corridor).map (fun cc => (row0, cc))
    else []
  let leg3 : List (Int × Int) :=
    if row0 > r1 then (rangeZDown (row0 - 1) r1).map (fun rr => (rr, corridor))
    else []
  let leg4 : List (Int × Int) :=
    if c1 > corridor then (rangeZ (corridor + 1) c1).map (fun cc => (r1, cc))
    else if c1 < corridor then
      (rangeZDown (corridor - 1) c1).map (fun cc => (r1, cc))
    else []
  leg1 ++ leg2 ++ leg3 ++ leg4

/-- `PathfindingEngine.pickBlockBasedOnGate`.  Returns the chosen block
index; JS would return `undefined` from an empty weighted choice, which is
unreachable for the lists built here and modelled as 0. -/
def pickBlockBasedOnGate (gateCol numBlocks : Int) (gates : List (Int × Int))
    (f : Nat → ℚ) (i : Nat) : Int × Nat :=
  if gates.length = 0 ∨ numBlocks ≤ 0 then (0, i)
  else
    match gates.findIdx? (fun gate => gate.2 == gateCol) with
    | none =>
      let closest := gates.enum.foldl (fun closest p =>
        let dCur := |p.2.2 - gateCol|
        let dClo := |(listGetD gates (closest : Nat) (0, 0)).2 - gateCol|
        if dCur < dClo then p.1 else closest) 0
      let blockSpan := max 1 (jsFloorDiv numBlocks (gates.length : Int))
      let baseBlock := min ((closest : Int) * blockSpan) (numBlocks - 1)
      let pb1 : List Int := [baseBlock]
      let w1 : List ℚ := [mkRat 3 5]
      let pb2 := if baseBlock > 0 then pb1 ++ [baseBlock - 1] else pb1
      let w2 := if baseBlock > 0 then w1 ++ [mkRat 1 5] else w1
      let pb3 := if baseBlock < numBlocks - 1 then pb2 ++ [baseBlock + 1] else pb2
      let w3 := if baseBlock < numBlocks - 1 then w2 ++ [mkRat 1 5] else w2
      let (res, i1) := weightedChoiceR pb3 w3 f i
      (res.getD 0, i1)
    | some gi =>
      let blockSpan : ℚ := qDiv (numBlocks : ℚ) (gates.length : ℚ)
      let baseBlock : Int := ⌊qMul (gi : ℚ) blockSpan⌋
      let pb1 : List Int := if baseBlock < numBlocks then [baseBlock] else []
      let w1 : List ℚ := if baseBlock < numBlocks then [mkRat 3 5] else []
      let pb2 := if baseBlock + 1 < numBlocks then pb1 ++ [baseBlock + 1] else pb1
      let w2 := if baseBlock + 1 < numBlocks then w1 ++ [mkRat 3 10] else w1
      let pb3 := if baseBlock > 0 ∧ pb2.length < 2 then pb2 ++ [baseBlock - 1] else pb2
      let w3 := if baseBlock > 0 ∧ pb2.length < 2 then w2 ++ [mkRat 1 10] else w2
      let (res, i1) := weightedChoiceR pb3 w3 f i
      (res.getD 0, i1)

/-- `PathfindingEngine.pickPreferredCorridorCell`.  An out-of-range block
gives the source's fallback column 4; empty-segment cases are the source's
`catch` path (unreachable for the segment lists the engine builds). -/
def pickPreferredCorridorCell (block seatCol : Int)
    (blockToCorridorCells : List (List (List Int))) (f : Nat → ℚ) (i : Nat) :
    Int × Nat :=
  if block < 0 ∨ (blockToCorridorCells.length : Int) ≤ block then (4, i)
  else
    match listGetD blockToCorridorCells block [] with
    | [] => (4, i)
    | seg0 :: rest =>
      let segments := seg0 :: rest
      let segWeights := segments.map (fun seg =>
        match seg.map (fun c => |seatCol - c|) with
        | [] => (0 : ℚ)
        | d :: ds => qDiv 1 ((ds.foldl min d + 1 : Int) : ℚ))
      let (segO, i1) := weightedChoiceR segments segWeights f i
      match segO with
      | none => (4, i1)
      | some seg =>
        match seg with
        | [] => (4, i1)
        | c0 :: cs =>
          (cs.foldl (fun best c =>
            if |seatCol - c| < |seatCol - best| then c else best) c0, i1)

/-- `SeatSelectionEngine.rowOccupancy` -/
def rowOccupancy (g : Grid) (row c0 c1 : Int) : Int :=
  ((rangeZ c0 c1).filter (fun c =>
    gridGet g row c == SEATED_AGENT || gridGet g row c == STANDING)).length

/-- `SeatSelectionEngine.countAdjacentSeated` -/
def countAdjacentSeated (g : Grid) (r c : Int) : Int :=
  let dirs : List (Int × Int) :=
    [(-1, 0), (1, 0), (0, -1), (0, 1), (-1, -1), (-1, 1), (1, -1), (1, 1)]
  ((dirs.filter (fun d =>
    isValidPosition (r + d.1) (c + d.2) (g.length : Int)
      ((g.headD []).length : Int)
    && gridGet g (r + d.1) (c + d.2) == SEATED_AGENT)).length : Int)

/-- The row-has-available-seats check inside `pickSeatInBlock` step 1. -/
def rowHasSeats (g : Grid) (row c0 c1 : Int)
    (assigned : List (Int × Int)) : Bool :=
  (rangeZ c0 c1).any (fun c =>
    gridGet g row c == SEAT && !(assigned.contains (row, c)))

/-- `SeatSelectionEngine.pickSeatInBlock`.  `assigned` models the JS `Set`
of reserved seat keys as a duplicate-free list of coordinates; the random
cursor advances once per `Math.random()` of the source, including the
draws made only to gate debug logging. -/
def pickSeatInBlock (g : Grid) (block : Int) (assigned : List (Int × Int))
    (seatBlocks : List (Int × Int)) (bp ap sd : ℚ) (rowThr : Int)
    (f : Nat → ℚ) (i : Nat) : Option (Int × Int) × Nat :=
  if block < 0 ∨ (seatBlocks.length : Int) ≤ block then (none, i)
  else
    let c0 := (listGetD seatBlocks block (0, 0)).1
    let c1 := (listGetD seatBlocks block (0, 0)).2
    let availableRows := (rangeZ SEAT_ROWS_START (SEAT_ROWS_END - 1)).filter
      (fun r => rowOccupancy g r c0 c1 < rowThr && rowHasSeats g r c0 c1 assigned)
    if availableRows.isEmpty then (none, i)
    else
      let (candidateRows, i1) :=
        if bp > 0 then
          let ban : Int := if bp ≥ 4 then 2 else if bp ≥ 2 then 1 else 0
          let (cand0, j0) :=
            if ban > 0 then
              let filtered := availableRows.filter
                (fun r => r - SEAT_ROWS_START ≥ ban)
              if filtered.isEmpty then (availableRows, i) else (filtered, i + 1)
            else (availableRows, i)
          let sorted := cand0.mergeSort (fun a b => a ≤ b)
          let frontMost := sorted.headD 0
          let secondFront := sorted.get? 1
          let pAvoidFront := min (qAdd (mkRat 3 20) (qMul (mkRat 3 20) bp)) (mkRat 17 20)
          let pAvoidSecond : ℚ :=
            if bp ≥ 4 then mkRat 7 20 else if bp ≥ 3 then mkRat 1 5 else 0
          let pf1 := if f j0 < pAvoidFront then
              (let tmp := cand0.filter (fun r => r ≠ frontMost)
               if tmp.isEmpty then cand0 else tmp)
            else cand0
          let j1 := j0 + 1
          let (pf2, j2) :=
            if 1 < pf1.length ∧ secondFront.isSome then
              (if f j1 < pAvoidSecond then
                 (let tmp2 := pf1.filter (fun r => r ≠ secondFront.getD 0)
                  if tmp2.isEmpty then pf1 else tmp2)
               else pf1, j1 + 1)
            else (pf1, j1)
          if pf2.length ≠ 0 ∧ pf2.length ≠ cand0.length then (pf2, j2 + 1)
          else (cand0, j2)
        else (availableRows, i)
      let (chosenRow, i2) :=
        if bp > 0 then
          let rowWeights := candidateRows.map (fun r =>
            qAdd 1 (qMul bp (qPow 2 (r - SEAT_ROWS_START).toNat)))
          let (rowO, j) := weightedChoiceR candidateRows rowWeights f i1
          (rowO.getD 0, if bp > 3 then j + 1 else j)
        else
          (listGetD candidateRows ⌊qMul (f i1) ((candidateRows.length : Int) : ℚ)⌋ 0,
           i1 + 1)
      let cands := (rangeZ c0 c1).filter (fun c =>
        gridGet g chosenRow c == SEAT && !(assigned.contains (chosenRow, c)))
      let i3 := i2 + cands.length
      if cands.isEmpty then (none, i3)
      else
        let seats := cands.map (fun c => (chosenRow, c))
        let weights := cands.map (fun c =>
          let distFromEdge := min (c - c0) (c1 - c)
          let aisleW : ℚ := if distFromEdge ≤ 1 ∧ ap > 0 then qMul ap 3 else 0
          let w : ℚ := qAdd (qAdd 1 aisleW)
            (qMul (qSub 8 ((countAdjacentSeated g chosenRow c : Int) : ℚ)) sd)
          max w (mkRat 1 100))
        let (seatO, i4) := weightedChoiceR seats weights f i3
        (seatO, if bp > 3 then i4 + 1 else i4)

/-- The source shuffles block keys with `sort(() => Math.random() - 0.5)`,
whose resulting permutation is JS-engine-dependent.  Modelled as ordering by
per-element random keys (one draw per element), which is one such
permutation and is deterministic in the draw stream. -/
def shuffleByDraws (l : List Int) (f : Nat → ℚ) (i : Nat) :
    List Int × Nat :=
  let keyed := l.enum.map (fun p => (f (i + p.1), p.2))
  ((keyed.mergeSort (fun a b => a.1 ≤ b.1)).map (fun p => p.2), i + l.length)

/-- The block loop of `SeatSelectionEngine.pickSeatAnyBlock`. -/
def pickAnyGo (g : Grid) (assigned : List (Int × Int))
    (seatBlocks : List (Int × Int)) (bp ap sd : ℚ) (rowThr : Int)
    (f : Nat → ℚ) : List Int → Nat → Option (Int × (Int × Int)) × Nat
  | [], i => (none, i)
  | b :: bs, i =>
    match pickSeatInBlock g b assigned seatBlocks bp ap sd rowThr f i with
    | (some s, i') => (some (b, s), i')
    | (none, i') => pickAnyGo g assigned seatBlocks bp ap sd rowThr f bs i'

/-- `SeatSelectionEngine.pickSeatAnyBlock`: try every block in shuffled
order; `none` is the source's `[null, null]`. -/
def pickSeatAnyBlock (g : Grid) (assigned : List (Int × Int))
    (seatBlocks : List (Int × Int)) (bp ap sd : ℚ) (rowThr : Int)
    (f : Nat → ℚ) (i : Nat) : Option (Int × (Int × Int)) × Nat :=
  let blocks := rangeZ 0 ((seatBlocks.length : Int) - 1)
  let (shuffled, i1) := shuffleByDraws blocks f i
  pickAnyGo g assigned seatBlocks bp ap sd rowThr f shuffled i1

/-- The per-row candidate collection of
`SeatSelectionEngine.findStandingPosition`. -/
def standingCandidatesRow (g : Grid) (r : Int) : List (Int × Int) :=
  (rangeZ 0 (((g.headD []).length : Int) - 1)).filterMap (fun c =>
    let t := gridGet g r c
    if t ≠ SEAT ∧ t ≠ GATE ∧ t ≠ SEATED_AGENT ∧ t ≠ STANDING
    then some (r, c) else none)

/-- The fixed bottom-most-first scan order of
`findStandingPosition` (`for (const r of [19, 18, 17, 16, 15, 14])`). -/
def STANDING_SCAN_ORDER : List Int := [19, 18, 17, 16, 15, 14]

/-- `SeatSelectionEngine.findStandingPosition`: scan back rows bottom-most
first, return a random candidate from the first row that has any; when no
scanned row has a candidate, fall back to a random cell with row
`BACK_ROWS.START + ⌊rand*6⌋` and column `⌊rand*cols⌋`. -/
def findStandingPosition (g : Grid) (f : Nat → ℚ) (i : Nat) :
    (Int × Int) × Nat :=
  match (STANDING_SCAN_ORDER.map (standingCandidatesRow g)).find?
      (fun l => !l.isEmpty) with
  | some cands =>
    (listGetD cands ⌊qMul (f i) ((cands.length : Int) : ℚ)⌋ (0, 0), i + 1)
  | none =>
    let cols := ((g.headD []).length : Int)
    let r := BACK_ROWS_START + ⌊qMul (f i) 6⌋
    let c := ⌊qMul (f (i + 1)) ((cols : Int) : ℚ)⌋
    ((r, c), i + 2)

/-- The engine's configuration object as the `Agent`/`SimulationEngine`
classes consume it.  Fields that stay integral in every reachable
configuration are `Int`; the preference weights are `Rat` because the
per-spawn arrival-phase scaling multiplies `BACK_PREF` by 1.5/0.5. -/
structure SimConfig where
  ROWS : Int
  COLS : Int
  NUM_BLOCKS : Int
  FEATURE_ASSIGNED_SEATS : Bool
  FEATURE_COLOR_BY_BLOCK : Bool
  NUM_AGENTS : Int
  SPEED : Int
  MAX_TIME : Int
  SOCIAL_DISTANCE : ℚ
  BACK_PREF : ℚ
  AISLE_PREF : ℚ
  CORRIDOR_WIDTH : Int
  deriving Repr, DecidableEq

/-- The seat-filling loops of `GridBuilder.buildGrid`: every block's column
range of every seat row becomes a Seat cell. -/
def seatFill (seatBlocks : List (Int × Int)) (g : Grid) : Grid :=
  (rangeZ SEAT_ROWS_START (SEAT_ROWS_END - 1)).foldl (fun g r =>
    seatBlocks.foldl (fun g blk =>
      (rangeZ blk.1 blk.2).foldl (fun g c => gridSet g r c SEAT) g) g) g

/-- One grid row of the corridor-filling loop of `GridBuilder.buildGrid`:
every still-Empty cell in a corridor segment's columns becomes Corridor. -/
def corridorFillRow (segs : List (List Int)) (g : Grid) (r : Int) : Grid :=
  segs.foldl (fun g seg =>
    seg.foldl (fun g c =>
      if gridGet g r c == EMPTY then gridSet g r c CORRIDOR else g) g) g

/-- `GridBuilder.buildGrid` (the source wraps this in `try`/`catch`
returning `null`; the embedding is total, so the failure branch is
unreachable here). -/
def buildGrid (cfg : SimConfig) : Grid :=
  let g0 : Grid :=
    List.replicate cfg.ROWS.toNat (List.replicate cfg.COLS.toNat EMPTY)
  let seatBlocks := generateSeatBlocks cfg.COLS cfg.NUM_BLOCKS cfg.CORRIDOR_WIDTH
  let corridorSegs :=
    generateCorridorSegments cfg.COLS seatBlocks cfg.CORRIDOR_WIDTH
  let g2 := (rangeZ 0 (cfg.ROWS - 1)).foldl
    (corridorFillRow corridorSegs) (seatFill seatBlocks g0)
  (GATE_POSITIONS.filter (fun c => c < cfg.COLS)).foldl
    (fun g c => gridSet g (cfg.ROWS - 1) c GATE) g2

/-- Per-agent state, the fields of the `Agent` class. -/
structure Agent where
  pos : Int × Int
  seated : Bool
  standing : Bool
  willStand : Bool
  block : Int
  seat : Int × Int
  corridor : Int
  row0 : Int
  path : List (Int × Int)
  deriving Repr, DecidableEq

/-- Tail of the `Agent` constructor once a real seat is chosen: reserve the
seat when the assigned-seats feature is on, pick the corridor column and a
random turn row, and build the four-leg path. -/
def mkSeatAgent (spawn : Int × Int) (blk : Int) (seat : Int × Int)
    (assigned : List (Int × Int)) (cfg : SimConfig)
    (blockToCorridorCells : List (List (List Int))) (f : Nat → ℚ) (i : Nat) :
    Agent × List (Int × Int) × Nat :=
  let assigned1 :=
    if cfg.FEATURE_ASSIGNED_SEATS then assigned.insert seat else assigned
  let (corridor, i1) :=
    pickPreferredCorridorCell blk seat.2 blockToCorridorCells f i
  let row0 := PATH_ROW_RANGE_START + ⌊qMul (f i1) 4⌋
  ({ pos := spawn, seated := false, standing := false, willStand := false,
     block := blk, seat := seat, corridor := corridor, row0 := row0,
     path := computeSimplePath spawn corridor seat row0 },
   assigned1, i1 + 1)

/-- The `Agent` constructor: pick a block from the spawn gate, try a seat in
it, then any block, and fall back to a standing position (corridor column
fixed to the configured corridor width, turn row fixed to 19). -/
def mkAgent (g : Grid) (spawn : Int × Int) (assigned : List (Int × Int))
    (seatBlocks : List (Int × Int))
    (blockToCorridorCells : List (List (List Int))) (cfg : SimConfig)
    (gates : List (Int × Int)) (f : Nat → ℚ) (i : Nat) :
    Agent × List (Int × Int) × Nat :=
  let numBlocks := (seatBlocks.length : Int)
  let (blk0, i1) := pickBlockBasedOnGate spawn.2 numBlocks gates f i
  let blk := if numBlocks ≤ blk0 then numBlocks - 1 else blk0
  match pickSeatInBlock g blk assigned seatBlocks cfg.BACK_PREF cfg.AISLE_PREF
      cfg.SOCIAL_DISTANCE DEFAULT_ROW_THRESHOLD f i1 with
  | (some seat, i2) =>
    mkSeatAgent spawn blk seat assigned cfg blockToCorridorCells f i2
  | (none, i2) =>
    match pickSeatAnyBlock g assigned seatBlocks cfg.BACK_PREF cfg.AISLE_PREF
        cfg.SOCIAL_DISTANCE DEFAULT_ROW_THRESHOLD f i2 with
    | (some (b, s), i3) =>
      mkSeatAgent spawn b s assigned cfg blockToCorridorCells f i3
    | (none, i3) =>
      let (standPos, i4) := findStandingPosition g f i3
      ({ pos := spawn, seated := false, standing := false, willStand := true,
         block := blk, seat := standPos, corridor := cfg.CORRIDOR_WIDTH,
         row0 := 19,
         path := computeSimplePath spawn cfg.CORRIDOR_WIDTH standPos 19 },
       assigned, i4)

/-- `Agent.update`: settle when the path is exhausted (Seated only on a
Seat cell, defensively Standing otherwise), else advance one path cell. -/
def stepAgent (a : Agent) (g : Grid) : Agent × Grid :=
  if a.seated || a.standing then (a, g)
  else
    match a.path with
    | [] =>
      if a.willStand then
        ({ a with standing := true }, gridSet g a.pos.1 a.pos.2 STANDING)
      else if gridGet g a.pos.1 a.pos.2 == SEAT then
        ({ a with seated := true }, gridSet g a.pos.1 a.pos.2 SEATED_AGENT)
      else
        ({ a with standing := true }, gridSet g a.pos.1 a.pos.2 STANDING)
    | p :: rest => ({ a with pos := p, path := rest }, g)

/-- The active-run chart samples (`this.chartData`). -/
structure ChartData where
  time : List Int
  seated : List Int
  standing : List Int
  deriving Repr, DecidableEq

/-- The `SimulationEngine` instance state. -/
structure SimState where
  grid : Grid
  agents : List Agent
  spawned : Int
  time : Int
  completed : Bool
  assigned : List (Int × Int)
  gates : List (Int × Int)
  seatBlocks : List (Int × Int)
  corridorSegs : List (List Int)
  blockToCorridorCells : List (List (List Int))
  chartData : ChartData
  rngIx : Nat
  deriving Repr, DecidableEq

/-- `SimulationEngine.initialize`: build the grid, reset every collection
and counter, and derive gates, blocks, corridor segments and the
block-to-adjacent-corridors map (the rightmost block borrows the previous
corridor when it would otherwise have only one). -/
def initSim (cfg : SimConfig) : SimState :=
  let seatBlocks := generateSeatBlocks cfg.COLS cfg.NUM_BLOCKS cfg.CORRIDOR_WIDTH
  let corridorSegs :=
    generateCorridorSegments cfg.COLS seatBlocks cfg.CORRIDOR_WIDTH
  let b2c := (List.range cfg.NUM_BLOCKS.toNat).map (fun i =>
    let left := corridorSegs.get? i
    let right := corridorSegs.get? (i + 1)
    let avail := (match left with | some s => [s] | none => [])
      ++ (match right with | some s => [s] | none => [])
    if avail.length = 1 ∧ (i : Int) = cfg.NUM_BLOCKS - 1 then
      match (if 1 ≤ i then corridorSegs.get? (i - 1) else none) with
      | some s => s :: avail
      | none => avail
    else avail)
  { grid := buildGrid cfg, agents := [], spawned := 0, time := 0,
    completed := false, assigned := [],
    gates := (GATE_POSITIONS.filter (fun c => c < cfg.COLS)).map
      (fun c => (cfg.ROWS - 1, c)),
    seatBlocks := seatBlocks, corridorSegs := corridorSegs,
    blockToCorridorCells := b2c,
    chartData := { time := [], seated := [], standing := [] }, rngIx := 0 }

def countSeated (l : List Agent) : Int :=
  ((l.filter (fun a => a.seated)).length : Int)

def countStanding (l : List Agent) : Int :=
  ((l.filter (fun a => a.standing)).length : Int)

def countMoving (l : List Agent) : Int :=
  ((l.filter (fun a => !a.seated && !a.standing)).length : Int)

/-- The per-tick agent advance loop (`this.agents.forEach`): agents are
stepped in list order against the shared grid. -/
def moveAgents : List Agent → Grid → List Agent × Grid
  | [], g => ([], g)
  | a :: rest, g =>
    let s := if !a.seated && !a.standing then stepAgent a g else (a, g)
    let t := moveAgents rest s.2
    (s.1 :: t.1, t.2)

/-- Accumulator of the per-gate spawn loop inside
`SimulationEngine.update`. -/
structure SpawnAcc where
  agents : List Agent
  spawned : Int
  grid : Grid
  assigned : List (Int × Int)
  occupied : List (Int × Int)
  rngIx : Nat

/-- One gate of the spawn loop: if budget remains and the gate cell is not
occupied by a moving agent, construct an agent there with the
arrival-phase-scaled `BACK_PREF`, and reserve its target cell immediately
when it will stand. -/
def spawnStep (cfg : SimConfig) (seatBlocks : List (Int × Int))
    (b2c : List (List (List Int))) (gates : List (Int × Int))
    (f : Nat → ℚ) (acc : SpawnAcc) (gate : Int × Int) : SpawnAcc :=
  if acc.spawned < cfg.NUM_AGENTS ∧ ¬ acc.occupied.contains gate then
    let arrivalFrac : ℚ := qDiv (acc.spawned : ℚ) (cfg.NUM_AGENTS : ℚ)
    let mult : ℚ :=
      if arrivalFrac < mkRat 3 10 then mkRat 3 2
      else if arrivalFrac < mkRat 7 10 then 1 else mkRat 1 2
    let cfg' := { cfg with BACK_PREF := max 0 (qMul cfg.BACK_PREF mult) }
    let r := mkAgent acc.grid gate acc.assigned seatBlocks b2c cfg' gates f acc.rngIx
    let a := r.1
    { agents := acc.agents ++ [a], spawned := acc.spawned + 1,
      grid := if a.willStand then gridSet acc.grid a.seat.1 a.seat.2 STANDING
              else acc.grid,
      assigned := r.2.1, occupied := acc.occupied ++ [gate], rngIx := r.2.2 }
  else acc

/-- `SimulationEngine.update`: spawn at free gates, advance every
non-terminal agent, bump the tick counter, sample the chart, and check
completion. -/
def update (cfg : SimConfig) (f : Nat → ℚ) (s : SimState) : SimState :=
  if s.completed then s
  else
    let occupied :=
      (s.agents.filter (fun a => !a.seated && !a.standing)).map (fun a => a.pos)
    let acc0 : SpawnAcc :=
      { agents := s.agents, spawned := s.spawned, grid := s.grid,
        assigned := s.assigned, occupied := occupied, rngIx := s.rngIx }
    let acc := s.gates.foldl
      (spawnStep cfg s.seatBlocks s.blockToCorridorCells s.gates f) acc0
    let stepped := moveAgents acc.agents acc.grid
    let agents' := stepped.1
    let time' := s.time + 1
    let seated := countSeated agents'
    let standing := countStanding agents'
    let done := (agents'.all (fun a => a.seated || a.standing)
        && decide (cfg.NUM_AGENTS ≤ acc.spawned))
      || decide (cfg.MAX_TIME ≤ time')
    { s with
      grid := stepped.2, agents := agents', spawned := acc.spawned,
      time := time', completed := done, assigned := acc.assigned,
      chartData := { time := s.chartData.time ++ [time'],
                     seated := s.chartData.seated ++ [seated],
                     standing := s.chartData.standing ++ [standing] },
      rngIx := acc.rngIx }

/-- A run: `initialize` followed by `n` calls of `update`, with `f` the
stream of `Math.random()` results. -/
def runSim (cfg : SimConfig) (f : Nat → ℚ) (n : Nat) : SimState :=
  (update cfg f)^[n] (initSim cfg)

/-- The numeric fields of `SimulationEngine.getStats` (the string-formatted
percentage and speed fields are presentation-only and not modelled). -/
structure Stats where
  time : Int
  spawned : Int
  seated : Int
  standing : Int
  moving : Int
  deriving Repr, DecidableEq

/-- `SimulationEngine.getStats`, numeric part. -/
def getStats (s : SimState) : Stats :=
  { time := s.time, spawned := s.spawned, seated := countSeated s.agents,
    standing := countStanding s.agents, moving := countMoving s.agents }

/-- The keys of the `ConfigManager` configuration object. -/
inductive CKey where
  | ROWS | COLS | NUM_BLOCKS | FEATURE_ASSIGNED_SEATS | FEATURE_COLOR_BY_BLOCK
  | NUM_AGENTS | SPEED | MAX_TIME | SOCIAL_DISTANCE | BACK_PREF | AISLE_PREF
  | CORRIDOR_WIDTH
  deriving Repr, DecidableEq

/-- A JS configuration value: a number or a boolean. -/
inductive CVal where
  | num (q : ℚ)
  | bool (b : Bool)
  deriving Repr, DecidableEq

/-- JS numeric coercion (`Number(v)`) as the `>=`/`<=` comparisons of the
validators apply it to a boolean. -/
def asNum : CVal → ℚ
  | .num q => q
  | .bool b => if b then 1 else 0

/-- Whether `ConfigManager.validate` has a validator entry for the key. -/
def hasValidator : CKey → Bool
  | .NUM_AGENTS | .SPEED | .MAX_TIME | .NUM_BLOCKS
  | .SOCIAL_DISTANCE | .BACK_PREF | .AISLE_PREF => true
  | _ => false

/-- The per-key validation range of `ConfigManager.validate`
(keys without a validator accept every value). -/
def validRange : CKey → ℚ → Bool
  | .NUM_AGENTS, q => 50 ≤ q && q ≤ 500
  | .SPEED, q => 10 ≤ q && q ≤ 500
  | .MAX_TIME, q => 200 ≤ q && q ≤ 1000
  | .NUM_BLOCKS, q => 2 ≤ q && q ≤ 6
  | .SOCIAL_DISTANCE, q => 0 ≤ q && q ≤ 5
  | .BACK_PREF, q => 0 ≤ q && q ≤ 5
  | .AISLE_PREF, q => 0 ≤ q && q ≤ 5
  | _, _ => true

/-- `ConfigManager.validate` -/
def validate (k : CKey) (v : CVal) : Bool := validRange k (asNum v)

/-- The stored configuration of a `ConfigManager` instance. -/
structure CMConfig where
  ROWS : CVal
  COLS : CVal
  NUM_BLOCKS : CVal
  FEATURE_ASSIGNED_SEATS : CVal
  FEATURE_COLOR_BY_BLOCK : CVal
  NUM_AGENTS : CVal
  SPEED : CVal
  MAX_TIME : CVal
  SOCIAL_DISTANCE : CVal
  BACK_PREF : CVal
  AISLE_PREF : CVal
  CORRIDOR_WIDTH : CVal
  deriving Repr, DecidableEq

/-- `this.config[key]` -/
def cget (c : CMConfig) : CKey → CVal
  | .ROWS => c.ROWS
  | .COLS => c.COLS
  | .NUM_BLOCKS => c.NUM_BLOCKS
  | .FEATURE_ASSIGNED_SEATS => c.FEATURE_ASSIGNED_SEATS
  | .FEATURE_COLOR_BY_BLOCK => c.FEATURE_COLOR_BY_BLOCK
  | .NUM_AGENTS => c.NUM_AGENTS
  | .SPEED => c.SPEED
  | .MAX_TIME => c.MAX_TIME
  | .SOCIAL_DISTANCE => c.SOCIAL_DISTANCE
  | .BACK_PREF => c.BACK_PREF
  | .AISLE_PREF => c.AISLE_PREF
  | .CORRIDOR_WIDTH => c.CORRIDOR_WIDTH

/-- `this.config[key] = value` -/
def csetRaw (c : CMConfig) (k : CKey) (v : CVal) : CMConfig :=
  match k with
  | .ROWS => { c with ROWS := v }
  | .COLS => { c with COLS := v }
  | .NUM_BLOCKS => { c with NUM_BLOCKS := v }
  | .FEATURE_ASSIGNED_SEATS => { c with FEATURE_ASSIGNED_SEATS := v }
  | .FEATURE_COLOR_BY_BLOCK => { c with FEATURE_COLOR_BY_BLOCK := v }
  | .NUM_AGENTS => { c with NUM_AGENTS := v }
  | .SPEED => { c with SPEED := v }
  | .MAX_TIME => { c with MAX_TIME := v }
  | .SOCIAL_DISTANCE => { c with SOCIAL_DISTANCE := v }
  | .BACK_PREF => { c with BACK_PREF := v }
  | .AISLE_PREF => { c with AISLE_PREF := v }
  | .CORRIDOR_WIDTH => { c with CORRIDOR_WIDTH := v }

/-- The per-width per-block seat count computed inside
`ConfigManager.calculateCorridorWidth`:
`Math.floor((cols - (numBlocks+1)*w) / numBlocks)`. -/
def seatsPerBlock (cols numBlocks w : ℚ) : Int :=
  ⌊qDiv (qSub cols (qMul (qAdd numBlocks 1) w)) numBlocks⌋

/-- `ConfigManager.calculateCorridorWidth`: try widths 2..6 in ascending
order, adopt a width exactly when it strictly improves the per-block seat
count and leaves a non-negative seat-column remainder, starting from the
state (width 2, 0 seats). -/
def calculateCorridorWidth (cols numBlocks : ℚ) : ℚ :=
  (([2, 3, 4, 5, 6] : List ℚ).foldl (fun acc w =>
    let remaining := qSub cols (qMul (qAdd numBlocks 1) w)
    if seatsPerBlock cols numBlocks w > acc.2 ∧ 0 ≤ remaining then
      (w, seatsPerBlock cols numBlocks w)
    else acc) ((2 : ℚ), (0 : Int))).1

/-- The corridor-width search as the specification words it: ascending
widths 2 through 6, select the width maximizing the per-block seat count
subject to a non-negative seat-column remainder, ties between widths with
the same per-block seat count resolved in favor of the larger width found
last in the search (hence the `≥` update). -/
def corridorWidthSpec (cols numBlocks : ℚ) : ℚ :=
  (([2, 3, 4, 5, 6] : List ℚ).foldl (fun acc w =>
    let remaining := qSub cols (qMul (qAdd numBlocks 1) w)
    if seatsPerBlock cols numBlocks w ≥ acc.2 ∧ 0 ≤ remaining then
      (w, seatsPerBlock cols numBlocks w)
    else acc) ((2 : ℚ), (0 : Int))).1

/-- `ConfigManager.set`: validate, store, recompute the corridor width when
the block count changes, then notify listeners synchronously.  The returned
list is the notification event delivered to the listeners; it is empty
exactly when the set is rejected. -/
def configSet (c : CMConfig) (k : CKey) (v : CVal) :
    CMConfig × List (CKey × CVal) :=
  if validate k v then
    let c1 := csetRaw c k v
    let c2 :=
      if k = CKey.NUM_BLOCKS then
        csetRaw c1 CKey.CORRIDOR_WIDTH
          (CVal.num (calculateCorridorWidth (asNum (cget c1 CKey.COLS))
            (asNum (cget c1 CKey.NUM_BLOCKS))))
      else c1
    (c2, [(k, v)])
  else (c, [])

/-- The four-leg path exactly as the claim words it: leg 3 runs from the
turn row to the seat's row along the corridor column in either direction,
and every leg is empty precisely when its start coordinate equals its end
coordinate. -/
def specFourLegPath (spawn : Int × Int) (corridor : Int)
    (seat : Int × Int) (row0 : Int) : List (Int × Int) :=
  let r := spawn.1
  let c := spawn.2
  let r1 := seat.1
  let c1 := seat.2
  let leg1 : List (Int × Int) :=
    if r > row0 then (rangeZDown (r - 1) row0).map (fun rr => (rr, c))
    else if r < row0 then (rangeZ (r + 1) row0).map (fun rr => (rr, c))
    else []
  let leg2 : List (Int × Int) :=
    if corridor > c then (rangeZ (c + 1) corridor).map (fun cc => (row0, cc))
    else if corridor < c then
      (rangeZDown (c - 1) corridor).map (fun cc => (row0, cc))
    else []
  let leg3 : List (Int × Int) :=
    if row0 > r1 then (rangeZDown (row0 - 1) r1).map (fun rr => (rr, corridor))
    else if row0 < r1 then
      (rangeZ (row0 + 1) r1).map (fun rr => (rr, corridor))
    else []
  let leg4 : List (Int × Int) :=
    if c1 > corridor then (rangeZ (corridor + 1) c1).map (fun cc => (r1, cc))
    else if c1 < corridor then
      (rangeZDown (corridor - 1) c1).map (fun cc => (r1, cc))
    else []
  leg1 ++ leg2 ++ leg3 ++ leg4



/-- The block width `Math.floor((cols - (numBlocks+1)*corridorWidth) /
numBlocks)` computed inside `generateSeatBlocks`. -/
def blockWidthOf (cols numBlocks corridorWidth : Int) : Int :=
  jsFloorDiv (cols - (numBlocks + 1) * corridorWidth) numBlocks

/-- The constant-zero `Math.random()` stream. -/
def zeroStream : Nat → ℚ := fun _ => 0

/-- The constant-one-half `Math.random()` stream. -/
def halfStream : Nat → ℚ := fun _ => mkRat 1 2

/-- A grid whose back rows are entirely Seat cells, so that no scanned row
of `findStandingPosition` yields a candidate. -/
def gAllSeat : Grid := List.replicate 20 (List.replicate 4 SEAT)

/-- A grid whose bottom scanned row is entirely Empty, so the scan finds
candidates in row 19. -/
def gRow19Free : Grid :=
  List.replicate 19 (List.replicate 4 SEAT) ++ [List.replicate 4 EMPTY]

/-- The `ConfigManager` constructor's configuration: the defaults, with the
`CORRIDOR_WIDTH` key added by the constructor's `calculateCorridorWidth`
call (the placeholder 0 models the key's absence before that call). -/
def initialCMConfig : CMConfig :=
  csetRaw
    { ROWS := CVal.num 20, COLS := CVal.num 68, NUM_BLOCKS := CVal.num 4,
      FEATURE_ASSIGNED_SEATS := CVal.bool true,
      FEATURE_COLOR_BY_BLOCK := CVal.bool true, NUM_AGENTS := CVal.num 384,
      SPEED := CVal.num 20, MAX_TIME := CVal.num 500,
      SOCIAL_DISTANCE := CVal.num 3, BACK_PREF := CVal.num 3,
      AISLE_PREF := CVal.num 2, CORRIDOR_WIDTH := CVal.num 0 }
    CKey.CORRIDOR_WIDTH (CVal.num (calculateCorridorWidth 68 4))

/-- The run invariant: agents are never both Seated and Standing, the agent
count equals the spawned counter, a seated agent occupies a non-Seat cell,
no two seated agents share a position, with assigned seats every seat-bound
agent holds a reserved distinct seat, and without the feature the reserved
set stays empty. -/
def AccInv (cfg : SimConfig) (acc : SpawnAcc) : Prop :=
  (∀ a ∈ acc.agents, ¬(a.seated = true ∧ a.standing = true)) ∧
  ((acc.agents.length : Int) = acc.spawned) ∧
  (∀ a ∈ acc.agents, a.seated = true →
    gridGet acc.grid a.pos.1 a.pos.2 ≠ SEAT) ∧
  acc.agents.Pairwise
    (fun a b => a.seated = true → b.seated = true → a.pos ≠ b.pos) ∧
  (cfg.FEATURE_ASSIGNED_SEATS = true →
    (∀ a ∈ acc.agents, a.willStand = false → a.seat ∈ acc.assigned) ∧
    acc.agents.Pairwise
      (fun a b => a.willStand = false → b.willStand = false →
        a.seat ≠ b.seat)) ∧
  (cfg.FEATURE_ASSIGNED_SEATS = false → acc.assigned = [])

def Inv (cfg : SimConfig) (s : SimState) : Prop :=
  (∀ a ∈ s.agents, ¬(a.seated = true ∧ a.standing = true)) ∧
  ((s.agents.length : Int) = s.spawned) ∧
  (∀ a ∈ s.agents, a.seated = true →
    gridGet s.grid a.pos.1 a.pos.2 ≠ SEAT) ∧
  s.agents.Pairwise
    (fun a b => a.seated = true → b.seated = true → a.pos ≠ b.pos) ∧
  (cfg.FEATURE_ASSIGNED_SEATS = true →
    (∀ a ∈ s.agents, a.willStand = false → a.seat ∈ s.assigned) ∧
    s.agents.Pairwise
      (fun a b => a.willStand = false → b.willStand = false →
        a.seat ≠ b.seat)) ∧
  (cfg.FEATURE_ASSIGNED_SEATS = false → s.assigned = [])

/-- The arrival-phase `BACK_PREF` scaling applied inside the spawn loop. -/
def arrivalCfg (cfg : SimConfig) (spawned : Int) : SimConfig :=
  { cfg with BACK_PREF := max 0 (qMul cfg.BACK_PREF
      (if qDiv (spawned : ℚ) (cfg.NUM_AGENTS : ℚ) < mkRat 3 10 then mkRat 3 2
       else if qDiv (spawned : ℚ) (cfg.NUM_AGENTS : ℚ) < mkRat 7 10 then 1
       else mkRat 1 2)) }

/-- The default engine configuration with assigned seats enabled. -/
def cfg7 : SimConfig :=
  { ROWS := 20, COLS := 68, NUM_BLOCKS := 4, FEATURE_ASSIGNED_SEATS := true,
    FEATURE_COLOR_BY_BLOCK := true, NUM_AGENTS := 40, SPEED := 20,
    MAX_TIME := 500, SOCIAL_DISTANCE := mkRat 1 2, BACK_PREF := mkRat 1 2,
    AISLE_PREF := mkRat 1 2, CORRIDOR_WIDTH := 2 }

/-- The default engine configuration with assigned seats disabled. -/
def cfg10 : SimConfig :=
  { ROWS := 20, COLS := 68, NUM_BLOCKS := 4, FEATURE_ASSIGNED_SEATS := false,
    FEATURE_COLOR_BY_BLOCK := true, NUM_AGENTS := 40, SPEED := 20,
    MAX_TIME := 500, SOCIAL_DISTANCE := mkRat 1 2, BACK_PREF := mkRat 1 2,
    AISLE_PREF := mkRat 1 2, CORRIDOR_WIDTH := 2 }

def cfgC2 : SimConfig :=
  { ROWS := 20, COLS := 14, NUM_BLOCKS := 4, FEATURE_ASSIGNED_SEATS := false,
    FEATURE_COLOR_BY_BLOCK := true, NUM_AGENTS := 2, SPEED := 20,
    MAX_TIME := 500, SOCIAL_DISTANCE := 0, BACK_PREF := 0, AISLE_PREF := 0,
    CORRIDOR_WIDTH := 2 }

def sbC2 : List (Int × Int) := [(2, 2), (5, 5), (8, 8), (11, 11)]
def csC2 : List (List Int) := [[0, 1], [3, 4], [6, 7], [9, 10], [12, 13]]
def rowSeatL : List Nat := [0, 0, 1, 0, 0, 1, 0, 0, 1, 0, 0, 1, 0, 0]
def rowCorrL : List Nat := [2, 2, 0, 2, 2, 0, 2, 2, 0, 2, 2, 0, 2, 2]
def rowFullL : List Nat := [2, 2, 1, 2, 2, 1, 2, 2, 1, 2, 2, 1, 2, 2]
def rowGateL : List Nat := [2, 2, 0, 2, 2, 0, 2, 2, 0, 2, 3, 0, 2, 2]
def seatsLit : Grid :=
  List.replicate 6 (List.replicate 14 0) ++ List.replicate 8 rowSeatL
    ++ List.replicate 6 (List.replicate 14 0)
def corrLitA : Grid :=
  List.replicate 6 rowCorrL ++ [rowFullL] ++ List.replicate 7 rowSeatL
    ++ List.replicate 6 (List.replicate 14 0)
def corrLitB : Grid :=
  List.replicate 6 rowCorrL ++ List.replicate 8 rowFullL
    ++ List.replicate 6 (List.replicate 14 0)
def gridC2 : Grid :=
  List.replicate 6 rowCorrL ++ List.replicate 8 rowFullL
    ++ List.replicate 5 rowCorrL ++ [rowGateL]

def s0C2 : SimState :=
  { grid := gridC2, agents := [], spawned := 0, time := 0,
    completed := false, assigned := [], gates := [(19, 10)],
    seatBlocks := sbC2, corridorSegs := csC2,
    blockToCorridorCells :=
      [[[0, 1], [3, 4]], [[3, 4], [6, 7]], [[6, 7], [9, 10]],
       [[9, 10], [12, 13]]],
    chartData := { time := [], seated := [], standing := [] }, rngIx := 0 }

def TerminalDistinct (s : SimState) : Prop :=
  s.agents.Pairwise (fun a b =>
    (a.seated || a.standing) = true → (b.seated || b.standing) = true →
      a.pos ≠ b.pos)

instance (s : SimState) : Decidable (TerminalDistinct s) := by
  unfold TerminalDistinct; infer_instance

theorem qAdd_eq (a b : ℚ) : qAdd a b = a + b := (Rat.add_def' a b).symm

theorem qSub_eq (a b : ℚ) : qSub a b = a - b := (Rat.sub_def' a b).symm

theorem qMul_eq (a b : ℚ) : qMul a b = a * b := by
  rw [Rat.mul_def, Rat.normalize_eq_mkRat, qMul]

theorem qDiv_eq (a b : ℚ) : qDiv a b = a / b := by
  rw [qDiv, Rat.divInt_eq_div]
  push_cast
  conv_rhs => rw [← Rat.num_div_den a, ← Rat.num_div_den b,
    div_eq_mul_inv, inv_div, div_mul_div_comm]

theorem qPow_eq (a : ℚ) (n : Nat) : qPow a n = a ^ n := by
  induction n with
  | zero => simp [qPow]
  | succ n ih => rw [qPow, qMul_eq, ih, pow_succ]

theorem qSum_eq (l : List ℚ) : qSum l = l.sum := by
  have h : ∀ (q : ℚ), l.foldl qAdd q = q + l.sum := by
    induction l with
    | nil => intro q; simp [List.foldl]
    | cons x xs ih => intro q; simp [List.foldl, qAdd_eq, ih, add_assoc]
  simpa using h 0

theorem mul_jsFloorDiv_le (a n : Int) (hn : 0 < n) : n * jsFloorDiv a n ≤ a := by
  have hnq : (0 : ℚ) < (n : ℚ) := by exact_mod_cast hn
  have h1 : ((jsFloorDiv a n : Int) : ℚ) ≤ (a : ℚ) / (n : ℚ) := by
    rw [jsFloorDiv, qDiv_eq]
    exact Int.floor_le _
  have h2 : ((n * jsFloorDiv a n : Int) : ℚ) ≤ (a : ℚ) := by
    push_cast
    calc (n : ℚ) * ((jsFloorDiv a n : Int) : ℚ)
        ≤ (n : ℚ) * ((a : ℚ) / (n : ℚ)) := by
          exact mul_le_mul_of_nonneg_left h1 (le_of_lt hnq)
      _ = (a : ℚ) := by field_simp
  exact_mod_cast h2

theorem getD_range_map {α : Type} (f : Nat → α) (n i : Nat) (d : α)
    (h : i < n) : ((List.range n).map f).getD i d = f i := by
  rw [List.getD_eq_getElem?_getD, List.getElem?_map, List.getElem?_range h]
  rfl

theorem generateSeatBlocks_getD (cols numBlocks corridorWidth : Int)
    (i : Nat) (hi : i < numBlocks.toNat) :
    (generateSeatBlocks cols numBlocks corridorWidth).getD i (0, 0)
      = (corridorWidth
          + (i : Int) * (blockWidthOf cols numBlocks corridorWidth
            + corridorWidth),
         corridorWidth
          + (i : Int) * (blockWidthOf cols numBlocks corridorWidth
            + corridorWidth)
          + blockWidthOf cols numBlocks corridorWidth - 1) := by
  unfold generateSeatBlocks blockWidthOf
  rw [getD_range_map _ _ _ _ hi]

/-- C4: for every config with 2-6 blocks, corridor width 2-6 and positive
floored block width, `generateSeatBlocks` returns exactly `numBlocks` column
ranges, with block `i` starting at `corridorWidth + i*(blockWidth +
corridorWidth)`, each of width exactly the floored block width, entirely
inside `[0, cols)`, pairwise non-overlapping and strictly ordered left to
right. -/
theorem c4_generateSeatBlocks (cols numBlocks corridorWidth : Int)
    (hn2 : 2 ≤ numBlocks) (hn6 : numBlocks ≤ 6)
    (hw2 : 2 ≤ corridorWidth) (hw6 : corridorWidth ≤ 6)
    (hbw : 1 ≤ blockWidthOf cols numBlocks corridorWidth) :
    (generateSeatBlocks cols numBlocks corridorWidth).length
        = numBlocks.toNat ∧
    (∀ i : Nat, i < numBlocks.toNat →
      ((generateSeatBlocks cols numBlocks corridorWidth).getD i (0, 0)).1
          = corridorWidth
            + (i : Int) * (blockWidthOf cols numBlocks corridorWidth
              + corridorWidth) ∧
      ((generateSeatBlocks cols numBlocks corridorWidth).getD i (0, 0)).2
          - ((generateSeatBlocks cols numBlocks corridorWidth).getD i (0, 0)).1
          + 1 = blockWidthOf cols numBlocks corridorWidth ∧
      0 ≤ ((generateSeatBlocks cols numBlocks corridorWidth).getD i (0, 0)).1 ∧
      ((generateSeatBlocks cols numBlocks corridorWidth).getD i (0, 0)).2
          < cols) ∧
    (∀ i j : Nat, i < j → j < numBlocks.toNat →
      ((generateSeatBlocks cols numBlocks corridorWidth).getD i (0, 0)).2
        < ((generateSeatBlocks cols numBlocks corridorWidth).getD j (0, 0)).1) := by
  set bw := blockWidthOf cols numBlocks corridorWidth with hbwdef
  have hkey : numBlocks * bw ≤ cols - (numBlocks + 1) * corridorWidth :=
    mul_jsFloorDiv_le _ _ (by omega)
  refine ⟨?_, ?_, ?_⟩
  · unfold generateSeatBlocks
    rw [List.length_map, List.length_range]
  · intro i hi
    rw [generateSeatBlocks_getD cols numBlocks corridorWidth i hi, ← hbwdef]
    have hi' : (i : Int) ≤ numBlocks - 1 := by omega
    have hi0 : (0 : Int) ≤ (i : Int) := Int.natCast_nonneg i
    have hmul : (i : Int) * (bw + corridorWidth)
        ≤ (numBlocks - 1) * (bw + corridorWidth) :=
      mul_le_mul_of_nonneg_right hi' (by omega)
    refine ⟨rfl, by ring, ?_, ?_⟩
    · dsimp only
      nlinarith
    · dsimp only
      nlinarith
  · intro i j hij hj
    have hi : i < numBlocks.toNat := lt_trans hij hj
    rw [generateSeatBlocks_getD cols numBlocks corridorWidth i hi,
      generateSeatBlocks_getD cols numBlocks corridorWidth j hj, ← hbwdef]
    have h1 : (i : Int) + 1 ≤ (j : Int) := by exact_mod_cast hij
    have hmul : ((i : Int) + 1) * (bw + corridorWidth)
        ≤ (j : Int) * (bw + corridorWidth) :=
      mul_le_mul_of_nonneg_right h1 (by omega)
    dsimp only
    nlinarith

/-- C4 witness at the default layout (cols 68, 4 blocks, width 2). -/
theorem c4_witness :
    ((2 : Int) ≤ 4 ∧ (4 : Int) ≤ 6 ∧ (2 : Int) ≤ 2 ∧ (2 : Int) ≤ 6
      ∧ (1 : Int) ≤ blockWidthOf 68 4 2) ∧
    ((generateSeatBlocks 68 4 2).length = (4 : Int).toNat ∧
      (∀ i : Nat, i < (4 : Int).toNat →
        ((generateSeatBlocks 68 4 2).getD i (0, 0)).1
            = 2 + (i : Int) * (blockWidthOf 68 4 2 + 2) ∧
        ((generateSeatBlocks 68 4 2).getD i (0, 0)).2
            - ((generateSeatBlocks 68 4 2).getD i (0, 0)).1 + 1
            = blockWidthOf 68 4 2 ∧
        0 ≤ ((generateSeatBlocks 68 4 2).getD i (0, 0)).1 ∧
        ((generateSeatBlocks 68 4 2).getD i (0, 0)).2 < 68) ∧
      (∀ i j : Nat, i < j → j < (4 : Int).toNat →
        ((generateSeatBlocks 68 4 2).getD i (0, 0)).2
          < ((generateSeatBlocks 68 4 2).getD j (0, 0)).1)) :=
  ⟨⟨by decide, by decide, by decide, by decide, by decide⟩,
   c4_generateSeatBlocks 68 4 2 (by decide) (by decide) (by decide) (by decide)
     (by decide)⟩




/-- C6 counterexample: at spawn (0,0), corridor 0, seat (5,0), turn row 2
(turn row above the seat row), the code's path omits the third leg entirely,
while the claim's four-leg description (legs empty exactly when their start
equals their end) continues down to the seat row. -/
theorem c6_counterexample :
    computeSimplePath (0, 0) 0 (5, 0) 2 ≠ specFourLegPath (0, 0) 0 (5, 0) 2 ∧
    computeSimplePath (0, 0) 0 (5, 0) 2 = [(1, 0), (2, 0)] ∧
    specFourLegPath (0, 0) 0 (5, 0) 2
      = [(1, 0), (2, 0), (3, 0), (4, 0), (5, 0)] := by decide

/-- C6 amended: whenever the seat row is at or above the turn row (leg 3
travels upward only), `computeSimplePath` returns exactly the four-leg
concatenation the claim describes; for a turn row strictly above the seat
row the source emits no third leg at all. -/
theorem c6_amended (spawn : Int × Int) (corridor : Int)
    (seat : Int × Int) (row0 : Int) (h : seat.1 ≤ row0) :
    computeSimplePath spawn corridor seat row0
      = specFourLegPath spawn corridor seat row0 := by
  unfold computeSimplePath specFourLegPath
  have hnot : ¬ (row0 < seat.1) := not_lt.mpr h
  simp only [if_neg hnot]

/-- C6 witness: the amended equality at a concrete engine-typical input. -/
theorem c6_witness :
    ((6 : Int) ≤ 16) ∧
    computeSimplePath (19, 10) 1 (6, 2) 16
      = specFourLegPath (19, 10) 1 (6, 2) 16 :=
  ⟨by decide, c6_amended (19, 10) 1 (6, 2) 16 (by decide)⟩



theorem sum_of_all_zero (ws : List ℚ)
    (h : ∀ j, j < ws.length → ws.getD j 0 = 0) : ws.sum = 0 := by
  induction ws with
  | nil => simp
  | cons w ws ih =>
    have hw : w = 0 := h 0 (by simp)
    have hrest : ws.sum = 0 := by
      apply ih
      intro j hj
      exact h (j + 1) (by simpa using Nat.succ_lt_succ hj)
    simp [hw, hrest]

theorem sum_single_nonzero (ws : List ℚ) (k : Nat) (hk : k < ws.length)
    (h : ∀ j, j < ws.length → j ≠ k → ws.getD j 0 = 0) :
    ws.sum = ws.getD k 0 := by
  induction ws generalizing k with
  | nil => simp at hk
  | cons w ws ih =>
    cases k with
    | zero =>
      have hrest : ws.sum = 0 := by
        apply sum_of_all_zero
        intro j hj
        exact h (j + 1) (by simpa using Nat.succ_lt_succ hj) (by simp)
      simp [hrest]
    | succ k =>
      have hw : w = 0 := h 0 (by simp) (by simp)
      have := ih k (by simpa using Nat.lt_of_succ_lt_succ hk)
        (fun j hj hjk => h (j + 1) (by simpa using Nat.succ_lt_succ hj)
          (by simpa using hjk))
      simp [hw, this]

theorem weightedGo_single {α : Type} (k : Nat) :
    ∀ (items : List α) (ws : List ℚ) (lastE : α),
    items.length = ws.length → k < ws.length →
    (∀ j, j < ws.length → j ≠ k → ws.getD j 0 = 0) →
    0 < ws.getD k 0 → ∀ r : ℚ, 0 < r → r ≤ ws.getD k 0 →
    some (weightedGo lastE items ws r) = items.get? k := by
  induction k with
  | zero =>
    intro items ws lastE hlen hk hz hw r hr0 hr1
    match items, ws with
    | [], _ => simp at hlen; omega
    | x :: xs, w :: ws =>
      have hw0 : (w :: ws).getD 0 0 = w := by simp
      rw [hw0] at hw hr1
      have : qSub r w ≤ 0 := by rw [qSub_eq]; linarith
      simp [weightedGo, this]
  | succ k ih =>
    intro items ws lastE hlen hk hz hw r hr0 hr1
    match items, ws with
    | [], _ => simp at hlen; omega
    | x :: xs, [] => simp at hk
    | x :: xs, w :: ws =>
      have hw0 : w = 0 := hz 0 (by simp) (by simp)
      have hsub : qSub r w = r := by rw [qSub_eq, hw0, sub_zero]
      have hnot : ¬ qSub r w ≤ 0 := by rw [hsub]; linarith
      rw [weightedGo, if_neg hnot, hsub]
      have := ih xs ws lastE (by simpa using hlen)
        (by simpa using Nat.lt_of_succ_lt_succ hk)
        (fun j hj hjk => hz (j + 1) (by simpa using Nat.succ_lt_succ hj)
          (by simpa using hjk))
        (by simpa using hw) r hr0 (by simpa using hr1)
      simpa using this

/-- C3 amended: `weightedChoice` returns the first item when the weight
total is zero, and with exactly one nonzero weight it returns that item for
every draw with `0 < u < 1`; at the draw `u = 0` (a value `Math.random()`
can produce) the subtraction loop trips at the first index, so the item at
the first zero-weight position is returned instead. -/
theorem c3_amended {α : Type} (items : List α) (ws : List ℚ) (u : ℚ)
    (k : Nat) (hlen : items.length = ws.length) :
    (qSum ws = 0 → weightedChoice items ws u = items.head?) ∧
    (0 < u → u < 1 → k < ws.length →
      (∀ j, j < ws.length → j ≠ k → ws.getD j 0 = 0) →
      0 < ws.getD k 0 →
      weightedChoice items ws u = items.get? k) := by
  constructor
  · intro h0
    rw [weightedChoice, if_pos h0]
  · intro hu0 hu1 hk hz hw
    have hsum : qSum ws = ws.getD k 0 := by
      rw [qSum_eq]; exact sum_single_nonzero ws k hk hz
    have hne : qSum ws ≠ 0 := by rw [hsum]; exact ne_of_gt hw
    rw [weightedChoice, if_neg hne]
    have hne2 : items ≠ [] := by
      intro h
      rw [h] at hlen
      simp at hlen
      omega
    match e : items.getLast? with
    | none => exact absurd (List.getLast?_eq_none_iff.mp e) hne2
    | some lastE =>
      have hr : qMul u (qSum ws) = u * ws.getD k 0 := by
        rw [qMul_eq, hsum]
      rw [hr]
      exact weightedGo_single k items ws lastE hlen hk hz hw _
        (mul_pos hu0 hw) (le_of_lt (mul_lt_of_lt_one_left hw hu1))

/-- C3 counterexample: with weights `[0, 1]` and draw 0, `weightedChoice`
returns the first item, not the unique nonzero-weight item the claim
demands for every possible draw. -/
theorem c3_counterexample :
    weightedChoice [(10 : Int), 20] [0, 1] 0 = some 10 ∧
    weightedChoice [(10 : Int), 20] [0, 1] 0 ≠ some 20 := by decide

/-- C3 witness: both amended clauses applied at concrete inputs. -/
theorem c3_witness :
    ((0 : ℚ) < mkRat 1 2 ∧ mkRat 1 2 < 1 ∧
      1 < ([(0 : ℚ), 2, 0]).length ∧
      (∀ j, j < ([(0 : ℚ), 2, 0]).length → j ≠ 1 →
        ([(0 : ℚ), 2, 0]).getD j 0 = 0) ∧
      (0 : ℚ) < ([(0 : ℚ), 2, 0]).getD 1 0 ∧
      qSum [(0 : ℚ), 0, 0] = 0) ∧
    weightedChoice [(5 : Int), 7, 9] [0, 2, 0] (mkRat 1 2)
      = [(5 : Int), 7, 9].get? 1 ∧
    weightedChoice [(5 : Int), 7, 9] [0, 0, 0] (mkRat 1 2)
      = [(5 : Int), 7, 9].head? :=
  ⟨⟨by decide, by decide, by decide, by decide, by decide, by decide⟩,
   (c3_amended [(5 : Int), 7, 9] [0, 2, 0] (mkRat 1 2) 1 (by decide)).2
     (by decide) (by decide) (by decide) (by decide) (by decide),
   (c3_amended [(5 : Int), 7, 9] [0, 0, 0] (mkRat 1 2) 1 (by decide)).1
     (by decide)⟩





/-- C8 counterexample: on a grid whose scanned back rows are entirely Seat
cells, no scanned row yields a candidate, and the fallback cell depends on
the random stream (two streams give two different cells), so it is not a
fixed deterministic cell; the fixed cell `(18, 10)` of the source is only
the exception-handler fallback. -/
theorem c8_counterexample :
    ((STANDING_SCAN_ORDER.map (standingCandidatesRow gAllSeat)).find?
        (fun l => !l.isEmpty) = none) ∧
    (findStandingPosition gAllSeat zeroStream 0).1 = (14, 0) ∧
    (findStandingPosition gAllSeat halfStream 0).1 = (17, 2) ∧
    (findStandingPosition gAllSeat zeroStream 0).1
      ≠ (findStandingPosition gAllSeat halfStream 0).1 := by decide

theorem listGetD_mem {α : Type} (l : List α) (i : Int) (d : α)
    (h0 : 0 ≤ i) (h1 : i.toNat < l.length) : listGetD l i d ∈ l := by
  rw [listGetD, if_pos h0, List.getD_eq_getElem l d h1]
  exact List.getElem_mem h1

theorem floor_mul_len_bounds (u : ℚ) (n : Int) (hu0 : 0 ≤ u) (hu1 : u < 1)
    (hn : 0 < n) : 0 ≤ ⌊qMul u (n : ℚ)⌋ ∧ ⌊qMul u (n : ℚ)⌋ < n := by
  rw [qMul_eq]
  constructor
  · apply Int.floor_nonneg.mpr
    positivity
  · rw [Int.floor_lt]
    have hnq : (0 : ℚ) < (n : ℚ) := by exact_mod_cast hn
    calc u * (n : ℚ) < 1 * (n : ℚ) := by
          exact mul_lt_mul_of_pos_right hu1 hnq
      _ = (n : ℚ) := one_mul _

/-- C8 amended: `findStandingPosition` scans rows 19,18,17,16,15,14 in that
order, returns a uniformly drawn candidate (a member of the candidate list)
from the first scanned row that has one, and when no scanned row yields a
candidate it returns a random cell with row in 14..19 and column in
`[0, cols)` (not a fixed deterministic cell). -/
theorem c8_amended (g : Grid) (f : Nat → ℚ) (i : Nat)
    (hf : ∀ j, 0 ≤ f j ∧ f j < 1) :
    (∀ cands, (STANDING_SCAN_ORDER.map (standingCandidatesRow g)).find?
        (fun l => !l.isEmpty) = some cands →
      (findStandingPosition g f i).1 ∈ cands) ∧
    ((STANDING_SCAN_ORDER.map (standingCandidatesRow g)).find?
        (fun l => !l.isEmpty) = none →
      (14 ≤ (findStandingPosition g f i).1.1 ∧
        (findStandingPosition g f i).1.1 ≤ 19) ∧
      (0 < ((g.headD []).length : Int) →
        0 ≤ (findStandingPosition g f i).1.2 ∧
        (findStandingPosition g f i).1.2 < ((g.headD []).length : Int))) := by
  constructor
  · intro cands hfind
    have hne : cands ≠ [] := by
      have := List.find?_some hfind
      simpa [List.isEmpty_iff] using this
    have hlen : 0 < (cands.length : Int) := by
      have : 0 < cands.length := List.length_pos.mpr hne
      exact_mod_cast this
    have hb := floor_mul_len_bounds (f i) (cands.length : Int)
      (hf i).1 (hf i).2 hlen
    rw [findStandingPosition, hfind]
    apply listGetD_mem _ _ _ hb.1
    have := hb.2
    omega
  · intro hfind
    rw [findStandingPosition, hfind]
    constructor
    · have hb := floor_mul_len_bounds (f i) 6 (hf i).1 (hf i).2 (by norm_num)
      rw [show (((6 : Int) : ℚ)) = (6 : ℚ) by norm_num] at hb
      constructor
      · simp only [BACK_ROWS_START]
        omega
      · simp only [BACK_ROWS_START]
        omega
    · intro hcols
      have hb := floor_mul_len_bounds (f (i + 1)) _ (hf (i + 1)).1
        (hf (i + 1)).2 hcols
      exact ⟨hb.1, hb.2⟩


/-- C8 witness: the amended scan clause at a concrete grid and stream. -/
theorem c8_witness :
    ((0 : ℚ) ≤ zeroStream 0 ∧ zeroStream 0 < 1) ∧
    (findStandingPosition gRow19Free zeroStream 0).1
      ∈ standingCandidatesRow gRow19Free 19 :=
  ⟨⟨by decide, by decide⟩, by
    have h := (c8_amended gRow19Free zeroStream 0
      (fun j => ⟨le_of_eq rfl, by norm_num [zeroStream]⟩)).1
    exact h (standingCandidatesRow gRow19Free 19) (by decide)⟩




theorem seatsPerBlock_strict (cols n w d : ℚ) (hn : 1 ≤ n) (hd : 1 ≤ d) :
    seatsPerBlock cols n (w + d) < seatsPerBlock cols n w := by
  have hn0 : (0 : ℚ) < n := lt_of_lt_of_le one_pos hn
  simp only [seatsPerBlock, qDiv_eq, qSub_eq, qMul_eq, qAdd_eq]
  have h1 : (cols - (n + 1) * (w + d)) / n ≤ (cols - (n + 1) * w - n) / n := by
    rw [div_le_div_iff_of_pos_right hn0]
    nlinarith
  have h2 : (cols - (n + 1) * w - n) / n = (cols - (n + 1) * w) / n - 1 := by
    field_simp
  calc ⌊(cols - (n + 1) * (w + d)) / n⌋
      ≤ ⌊(cols - (n + 1) * w - n) / n⌋ := Int.floor_le_floor h1
    _ = ⌊(cols - (n + 1) * w) / n⌋ - 1 := by rw [h2, Int.floor_sub_one]
    _ < ⌊(cols - (n + 1) * w) / n⌋ := by omega

theorem seatsPerBlock_nonneg (cols n w : ℚ) (hn : 1 ≤ n)
    (h : 0 ≤ cols - (n + 1) * w) : 0 ≤ seatsPerBlock cols n w := by
  have hn0 : (0 : ℚ) < n := lt_of_lt_of_le one_pos hn
  simp only [seatsPerBlock, qDiv_eq, qSub_eq, qMul_eq, qAdd_eq]
  exact Int.floor_nonneg.mpr (div_nonneg h (le_of_lt hn0))

theorem calculateCorridorWidth_eq_two (cols n : ℚ) (hn : 1 ≤ n) :
    calculateCorridorWidth cols n = 2 := by
  have d23 : seatsPerBlock cols n 3 < seatsPerBlock cols n 2 := by
    have h := seatsPerBlock_strict cols n 2 1 hn le_rfl
    norm_num at h
    exact h
  have d34 : seatsPerBlock cols n 4 < seatsPerBlock cols n 3 := by
    have h := seatsPerBlock_strict cols n 3 1 hn le_rfl
    norm_num at h
    exact h
  have d45 : seatsPerBlock cols n 5 < seatsPerBlock cols n 4 := by
    have h := seatsPerBlock_strict cols n 4 1 hn le_rfl
    norm_num at h
    exact h
  have d56 : seatsPerBlock cols n 6 < seatsPerBlock cols n 5 := by
    have h := seatsPerBlock_strict cols n 5 1 hn le_rfl
    norm_num at h
    exact h
  have d24 := lt_trans d34 d23
  have d25 := lt_trans d45 d24
  have d26 := lt_trans d56 d25
  have remb : ∀ w : ℚ, 3 ≤ w →
      qSub cols (qMul (qAdd n 1) w) ≤ qSub cols (qMul (qAdd n 1) 2) - 2 := by
    intro w hw
    simp only [qSub_eq, qMul_eq, qAdd_eq]
    nlinarith
  simp only [calculateCorridorWidth, List.foldl_cons, List.foldl_nil]
  dsimp only
  by_cases h2 : (seatsPerBlock cols n 2 > (0 : Int)
      ∧ (0 : ℚ) ≤ qSub cols (qMul (qAdd n 1) 2))
  · rw [if_pos h2]
    dsimp only
    have hn3 : ¬ (seatsPerBlock cols n 3 > seatsPerBlock cols n 2
        ∧ (0 : ℚ) ≤ qSub cols (qMul (qAdd n 1) 3)) :=
      fun h => absurd h.1 (not_lt.mpr (le_of_lt d23))
    rw [if_neg hn3]
    dsimp only
    have hn4 : ¬ (seatsPerBlock cols n 4 > seatsPerBlock cols n 2
        ∧ (0 : ℚ) ≤ qSub cols (qMul (qAdd n 1) 4)) :=
      fun h => absurd h.1 (not_lt.mpr (le_of_lt d24))
    rw [if_neg hn4]
    dsimp only
    have hn5 : ¬ (seatsPerBlock cols n 5 > seatsPerBlock cols n 2
        ∧ (0 : ℚ) ≤ qSub cols (qMul (qAdd n 1) 5)) :=
      fun h => absurd h.1 (not_lt.mpr (le_of_lt d25))
    rw [if_neg hn5]
    dsimp only
    have hn6 : ¬ (seatsPerBlock cols n 6 > seatsPerBlock cols n 2
        ∧ (0 : ℚ) ≤ qSub cols (qMul (qAdd n 1) 6)) :=
      fun h => absurd h.1 (not_lt.mpr (le_of_lt d26))
    rw [if_neg hn6]
  · rw [if_neg h2]
    dsimp only
    have hno : ∀ w : ℚ, 3 ≤ w →
        seatsPerBlock cols n w < seatsPerBlock cols n 2 →
        ¬ (seatsPerBlock cols n w > (0 : Int)
          ∧ (0 : ℚ) ≤ qSub cols (qMul (qAdd n 1) w)) := by
      intro w hw hlt h
      have hrem2 : (0 : ℚ) ≤ qSub cols (qMul (qAdd n 1) 2) := by
        have := remb w hw
        linarith [h.2]
      have hs2 : ¬ (seatsPerBlock cols n 2 > (0 : Int)) :=
        fun hgt => h2 ⟨hgt, hrem2⟩
      have hle : seatsPerBlock cols n 2 ≤ 0 := not_lt.mp hs2
      have := h.1
      omega
    rw [if_neg (hno 3 (by norm_num) d23)]
    dsimp only
    rw [if_neg (hno 4 (by norm_num) d24)]
    dsimp only
    rw [if_neg (hno 5 (by norm_num) d25)]
    dsimp only
    rw [if_neg (hno 6 (by norm_num) d26)]

theorem corridorWidthSpec_eq_two (cols n : ℚ) (hn : 1 ≤ n) :
    corridorWidthSpec cols n = 2 := by
  have d23 : seatsPerBlock cols n 3 < seatsPerBlock cols n 2 := by
    have h := seatsPerBlock_strict cols n 2 1 hn le_rfl
    norm_num at h
    exact h
  have d34 : seatsPerBlock cols n 4 < seatsPerBlock cols n 3 := by
    have h := seatsPerBlock_strict cols n 3 1 hn le_rfl
    norm_num at h
    exact h
  have d45 : seatsPerBlock cols n 5 < seatsPerBlock cols n 4 := by
    have h := seatsPerBlock_strict cols n 4 1 hn le_rfl
    norm_num at h
    exact h
  have d56 : seatsPerBlock cols n 6 < seatsPerBlock cols n 5 := by
    have h := seatsPerBlock_strict cols n 5 1 hn le_rfl
    norm_num at h
    exact h
  have d24 := lt_trans d34 d23
  have d25 := lt_trans d45 d24
  have d26 := lt_trans d56 d25
  have remb : ∀ w : ℚ, 3 ≤ w →
      qSub cols (qMul (qAdd n 1) w) ≤ qSub cols (qMul (qAdd n 1) 2) - 2 := by
    intro w hw
    simp only [qSub_eq, qMul_eq, qAdd_eq]
    nlinarith
  simp only [corridorWidthSpec, List.foldl_cons, List.foldl_nil]
  dsimp only
  by_cases h2 : (seatsPerBlock cols n 2 ≥ (0 : Int)
      ∧ (0 : ℚ) ≤ qSub cols (qMul (qAdd n 1) 2))
  · rw [if_pos h2]
    dsimp only
    have hn3 : ¬ (seatsPerBlock cols n 3 ≥ seatsPerBlock cols n 2
        ∧ (0 : ℚ) ≤ qSub cols (qMul (qAdd n 1) 3)) :=
      fun h => absurd h.1 (not_le.mpr d23)
    rw [if_neg hn3]
    dsimp only
    have hn4 : ¬ (seatsPerBlock cols n 4 ≥ seatsPerBlock cols n 2
        ∧ (0 : ℚ) ≤ qSub cols (qMul (qAdd n 1) 4)) :=
      fun h => absurd h.1 (not_le.mpr d24)
    rw [if_neg hn4]
    dsimp only
    have hn5 : ¬ (seatsPerBlock cols n 5 ≥ seatsPerBlock cols n 2
        ∧ (0 : ℚ) ≤ qSub cols (qMul (qAdd n 1) 5)) :=
      fun h => absurd h.1 (not_le.mpr d25)
    rw [if_neg hn5]
    dsimp only
    have hn6 : ¬ (seatsPerBlock cols n 6 ≥ seatsPerBlock cols n 2
        ∧ (0 : ℚ) ≤ qSub cols (qMul (qAdd n 1) 6)) :=
      fun h => absurd h.1 (not_le.mpr d26)
    rw [if_neg hn6]
  · rw [if_neg h2]
    dsimp only
    have hno : ∀ w : ℚ, 3 ≤ w →
        seatsPerBlock cols n w < seatsPerBlock cols n 2 →
        ¬ (seatsPerBlock cols n w ≥ (0 : Int)
          ∧ (0 : ℚ) ≤ qSub cols (qMul (qAdd n 1) w)) := by
      intro w hw hlt h
      have hrem2 : (0 : ℚ) ≤ qSub cols (qMul (qAdd n 1) 2) := by
        have := remb w hw
        linarith [h.2]
      have hs2 : ¬ (seatsPerBlock cols n 2 ≥ (0 : Int)) :=
        fun hge => h2 ⟨hge, hrem2⟩
      have hlt2 : seatsPerBlock cols n 2 < 0 := not_le.mp hs2
      have := h.1
      omega
    rw [if_neg (hno 3 (by norm_num) d23)]
    dsimp only
    rw [if_neg (hno 4 (by norm_num) d24)]
    dsimp only
    rw [if_neg (hno 5 (by norm_num) d25)]
    dsimp only
    rw [if_neg (hno 6 (by norm_num) d26)]

/-- C5: a validated block-count set recomputes `CORRIDOR_WIDTH` via
`calculateCorridorWidth` on the stored column count and the new block
count, and that search agrees extensionally with the specification's
search (maximize per-block seats over widths 2..6 subject to a non-negative
remainder, ties to the larger width found last): the per-block seat count is
strictly decreasing in the width, so ties never arise and both searches
select the same width. -/
theorem c5_corridorWidth (m : CMConfig) (v : CVal) (cols numBlocks : ℚ)
    (hval : validate CKey.NUM_BLOCKS v = true) (hn : 1 ≤ numBlocks) :
    cget (configSet m CKey.NUM_BLOCKS v).1 CKey.CORRIDOR_WIDTH
      = CVal.num (calculateCorridorWidth (asNum (cget m CKey.COLS)) (asNum v))
    ∧ calculateCorridorWidth cols numBlocks
      = corridorWidthSpec cols numBlocks := by
  constructor
  · rw [configSet, if_pos hval]
    simp [csetRaw, cget]
  · rw [calculateCorridorWidth_eq_two cols numBlocks hn,
      corridorWidthSpec_eq_two cols numBlocks hn]


/-- C5 witness: both clauses at the constructor's configuration with the
block count set to 3. -/
theorem c5_witness :
    (validate CKey.NUM_BLOCKS (CVal.num 3) = true ∧ (1 : ℚ) ≤ 3) ∧
    cget (configSet initialCMConfig CKey.NUM_BLOCKS (CVal.num 3)).1
        CKey.CORRIDOR_WIDTH
      = CVal.num (calculateCorridorWidth
          (asNum (cget initialCMConfig CKey.COLS)) (asNum (CVal.num 3))) ∧
    calculateCorridorWidth 68 3 = corridorWidthSpec 68 3 :=
  ⟨⟨by decide, by decide⟩,
   (c5_corridorWidth initialCMConfig (CVal.num 3) 68 3 (by decide)
     (by decide)).1,
   (c5_corridorWidth initialCMConfig (CVal.num 3) 68 3 (by decide)
     (by decide)).2⟩

/-- C9: `ConfigManager.set` with a validated key and an out-of-range value
leaves the whole stored configuration unchanged and delivers no listener
event (and, being total, raises nothing); with an in-range value it stores
the value under the key and delivers exactly the one change event to the
listeners. -/
theorem c9_configSet (c : CMConfig) (k : CKey) (v : CVal) :
    (hasValidator k = true → validate k v = false →
      configSet c k v = (c, [])) ∧
    (validate k v = true →
      cget (configSet c k v).1 k = v ∧ (configSet c k v).2 = [(k, v)]) := by
  constructor
  · intro _ hval
    rw [configSet, if_neg (by simp [hval])]
  · intro hval
    rw [configSet, if_pos hval]
    refine ⟨?_, rfl⟩
    cases k <;> simp [csetRaw, cget]

/-- C9 witness: a rejected `NUM_AGENTS := 10` and an accepted
`BACK_PREF := 4` on the constructor's configuration. -/
theorem c9_witness :
    (hasValidator CKey.NUM_AGENTS = true
      ∧ validate CKey.NUM_AGENTS (CVal.num 10) = false
      ∧ validate CKey.BACK_PREF (CVal.num 4) = true) ∧
    configSet initialCMConfig CKey.NUM_AGENTS (CVal.num 10)
      = (initialCMConfig, []) ∧
    (cget (configSet initialCMConfig CKey.BACK_PREF (CVal.num 4)).1
        CKey.BACK_PREF = CVal.num 4 ∧
      (configSet initialCMConfig CKey.BACK_PREF (CVal.num 4)).2
        = [(CKey.BACK_PREF, CVal.num 4)]) :=
  ⟨⟨by decide, by decide, by decide⟩,
   (c9_configSet initialCMConfig CKey.NUM_AGENTS (CVal.num 10)).1
     (by decide) (by decide),
   (c9_configSet initialCMConfig CKey.BACK_PREF (CVal.num 4)).2 (by decide)⟩

theorem weightedGo_mem {α : Type} (lastE : α) :
    ∀ (items : List α) (ws : List ℚ) (r : ℚ),
    weightedGo lastE items ws r = lastE ∨ weightedGo lastE items ws r ∈ items := by
  intro items
  induction items with
  | nil => intro ws r; left; rfl
  | cons x xs ih =>
    intro ws r
    cases ws with
    | nil => left; rfl
    | cons w ws =>
      rw [weightedGo]
      by_cases h : qSub r w ≤ 0
      · rw [if_pos h]; right; exact List.mem_cons_self x xs
      · rw [if_neg h]
        rcases ih ws (qSub r w) with h1 | h1
        · left; exact h1
        · right; exact List.mem_cons_of_mem x h1

theorem weightedChoice_mem {α : Type} (items : List α) (ws : List ℚ) (u : ℚ)
    (x : α) (h : weightedChoice items ws u = some x) : x ∈ items := by
  rw [weightedChoice] at h
  by_cases h0 : qSum ws = 0
  · rw [if_pos h0] at h
    exact List.mem_of_mem_head? (Option.mem_def.mpr h)
  · rw [if_neg h0] at h
    rcases e : items.getLast? with _ | lastE
    · rw [e] at h
      exact absurd h (by simp)
    · rw [e] at h
      have hx : weightedGo lastE items ws (qMul u (qSum ws)) = x := by
        injection h
      rcases weightedGo_mem lastE items ws (qMul u (qSum ws)) with h1 | h1
      · rw [← hx, h1]
        exact List.mem_of_mem_getLast? (Option.mem_def.mpr e)
      · rw [← hx]
        exact h1

theorem weightedChoiceR_mem {α : Type} (items : List α) (ws : List ℚ)
    (f : Nat → ℚ) (i : Nat) (x : α) (j : Nat)
    (h : weightedChoiceR items ws f i = (some x, j)) : x ∈ items := by
  rw [weightedChoiceR] at h
  by_cases h0 : qSum ws = 0
  · rw [if_pos h0] at h
    have h1 : items.head? = some x := congrArg Prod.fst h
    exact List.mem_of_mem_head? (Option.mem_def.mpr h1)
  · rw [if_neg h0] at h
    exact weightedChoice_mem items ws (f i) x (congrArg Prod.fst h)

theorem pickSeatTail_not_mem (g : Grid) (assigned : List (Int × Int))
    (bp ap sd : ℚ) (c0 c1 row : Int) (f : Nat → ℚ) (i2 : Nat)
    (s : Int × Int) (j : Nat)
    (h : (let cands := (rangeZ c0 c1).filter (fun c =>
            gridGet g row c == SEAT && !(assigned.contains (row, c)))
          let i3 := i2 + cands.length
          if cands.isEmpty then ((none : Option (Int × Int)), i3)
          else
            let seats := cands.map (fun c => (row, c))
            let weights := cands.map (fun c =>
              let distFromEdge := min (c - c0) (c1 - c)
              let aisleW : ℚ := if distFromEdge ≤ 1 ∧ ap > 0 then qMul ap 3 else 0
              let w : ℚ := qAdd (qAdd 1 aisleW)
                (qMul (qSub 8 ((countAdjacentSeated g row c : Int) : ℚ)) sd)
              max w (mkRat 1 100))
            let (seatO, i4) := weightedChoiceR seats weights f i3
            (seatO, if bp > 3 then i4 + 1 else i4)) = (some s, j)) :
    s ∉ assigned := by
  generalize hc : (rangeZ c0 c1).filter (fun c =>
      gridGet g row c == SEAT && !(assigned.contains (row, c))) = cands at h
  simp only [] at h
  split at h
  · exact absurd (congrArg Prod.fst h) (by simp)
  · rcases e : weightedChoiceR (cands.map (fun c => (row, c)))
        (cands.map (fun c =>
          max (qAdd (qAdd 1 (if min (c - c0) (c1 - c) ≤ 1 ∧ ap > 0
              then qMul ap 3 else 0))
            (qMul (qSub 8 ((countAdjacentSeated g row c : Int) : ℚ)) sd))
            (mkRat 1 100)))
        f (i2 + cands.length) with ⟨seatO, i4⟩
    rw [e] at h
    simp only [] at h
    have hfst : seatO = some s := congrArg Prod.fst h
    rw [hfst] at e
    have hm := weightedChoiceR_mem _ _ f _ s i4 e
    rw [← hc] at hm
    simp only [List.mem_map, List.mem_filter, Bool.and_eq_true,
      Bool.not_eq_true'] at hm
    obtain ⟨c, hcm, rfl⟩ := hm
    intro hmem
    have hfalse := hcm.2.2
    simp at hfalse
    exact hfalse hmem

theorem pickSeatMid_not_mem (g : Grid) (assigned : List (Int × Int))
    (bp ap sd : ℚ) (c0 c1 : Int) (avail : List Int)
    (f : Nat → ℚ) (i : Nat) (s : Int × Int) (j : Nat)
    (h : (if avail.isEmpty then ((none : Option (Int × Int)), i)
          else
            let (candidateRows, i1) :=
              if bp > 0 then
                let ban : Int := if bp ≥ 4 then 2 else if bp ≥ 2 then 1 else 0
                let (cand0, j0) :=
                  if ban > 0 then
                    let filtered := avail.filter
                      (fun r => r - SEAT_ROWS_START ≥ ban)
                    if filtered.isEmpty then (avail, i) else (filtered, i + 1)
                  else (avail, i)
                let sorted := cand0.mergeSort (fun a b => a ≤ b)
                let frontMost := sorted.headD 0
                let secondFront := sorted.get? 1
                let pAvoidFront := min (qAdd (mkRat 3 20) (qMul (mkRat 3 20) bp)) (mkRat 17 20)
                let pAvoidSecond : ℚ :=
                  if bp ≥ 4 then mkRat 7 20 else if bp ≥ 3 then mkRat 1 5 else 0
                let pf1 := if f j0 < pAvoidFront then
                    (let tmp := cand0.filter (fun r => r ≠ frontMost)
                     if tmp.isEmpty then cand0 else tmp)
                  else cand0
                let j1 := j0 + 1
                let (pf2, j2) :=
                  if 1 < pf1.length ∧ secondFront.isSome then
                    (if f j1 < pAvoidSecond then
                       (let tmp2 := pf1.filter (fun r => r ≠ secondFront.getD 0)
                        if tmp2.isEmpty then pf1 else tmp2)
                     else pf1, j1 + 1)
                  else (pf1, j1)
                if pf2.length ≠ 0 ∧ pf2.length ≠ cand0.length then (pf2, j2 + 1)
                else (cand0, j2)
              else (avail, i)
            let (chosenRow, i2) :=
              if bp > 0 then
                let rowWeights := candidateRows.map (fun r =>
                  qAdd 1 (qMul bp (qPow 2 (r - SEAT_ROWS_START).toNat)))
                let (rowO, j) := weightedChoiceR candidateRows rowWeights f i1
                (rowO.getD 0, if bp > 3 then j + 1 else j)
              else
                (listGetD candidateRows ⌊qMul (f i1) ((candidateRows.length : Int) : ℚ)⌋ 0,
                 i1 + 1)
            let cands := (rangeZ c0 c1).filter (fun c =>
              gridGet g chosenRow c == SEAT && !(assigned.contains (chosenRow, c)))
            let i3 := i2 + cands.length
            if cands.isEmpty then (none, i3)
            else
              let seats := cands.map (fun c => (chosenRow, c))
              let weights := cands.map (fun c =>
                let distFromEdge := min (c - c0) (c1 - c)
                let aisleW : ℚ := if distFromEdge ≤ 1 ∧ ap > 0 then qMul ap 3 else 0
                let w : ℚ := qAdd (qAdd 1 aisleW)
                  (qMul (qSub 8 ((countAdjacentSeated g chosenRow c : Int) : ℚ)) sd)
                max w (mkRat 1 100))
              let (seatO, i4) := weightedChoiceR seats weights f i3
              (seatO, if bp > 3 then i4 + 1 else i4)) = (some s, j)) :
    s ∉ assigned := by
  split at h
  · exact absurd (congrArg Prod.fst h) (by simp)
  · exact pickSeatTail_not_mem g assigned bp ap sd c0 c1 _ f _ s j h

set_option maxHeartbeats 1000000 in
theorem pickSeatInBlock_not_mem (g : Grid) (block : Int)
    (assigned : List (Int × Int)) (seatBlocks : List (Int × Int))
    (bp ap sd : ℚ) (rowThr : Int) (f : Nat → ℚ) (i : Nat) (s : Int × Int)
    (j : Nat)
    (h : pickSeatInBlock g block assigned seatBlocks bp ap sd rowThr f i
      = (some s, j)) : s ∉ assigned := by
  rw [pickSeatInBlock] at h
  split at h
  · exact absurd (congrArg Prod.fst h) (by simp)
  · exact pickSeatMid_not_mem g assigned bp ap sd _ _ _ f i s j h


theorem pickAnyGo_not_mem (g : Grid) (assigned : List (Int × Int))
    (seatBlocks : List (Int × Int)) (bp ap sd : ℚ) (rowThr : Int)
    (f : Nat → ℚ) :
    ∀ (bs : List Int) (i : Nat) (b : Int) (s : Int × Int) (j : Nat),
    pickAnyGo g assigned seatBlocks bp ap sd rowThr f bs i = (some (b, s), j) →
    s ∉ assigned := by
  intro bs
  induction bs with
  | nil =>
    intro i b s j h
    rw [pickAnyGo] at h
    exact absurd (congrArg Prod.fst h) (by simp)
  | cons b0 bs ih =>
    intro i b s j h
    rw [pickAnyGo] at h
    rcases e : pickSeatInBlock g b0 assigned seatBlocks bp ap sd rowThr f i
      with ⟨o, i2⟩
    rw [e] at h
    cases o with
    | some st =>
      have h2 : ((some (b0, st) : Option (Int × (Int × Int))), i2)
          = (some (b, s), j) := h
      injection h2 with h3 h4
      injection h3 with h5
      injection h5 with hb hs
      subst hs
      exact pickSeatInBlock_not_mem g b0 assigned seatBlocks bp ap sd rowThr
        f i st i2 e
    | none => exact ih i2 b s j h

theorem pickSeatAnyBlock_not_mem (g : Grid) (assigned : List (Int × Int))
    (seatBlocks : List (Int × Int)) (bp ap sd : ℚ) (rowThr : Int)
    (f : Nat → ℚ) (i : Nat) (b : Int) (s : Int × Int) (j : Nat)
    (h : pickSeatAnyBlock g assigned seatBlocks bp ap sd rowThr f i
      = (some (b, s), j)) : s ∉ assigned := by
  rw [pickSeatAnyBlock] at h
  exact pickAnyGo_not_mem g assigned seatBlocks bp ap sd rowThr f _ _ b s j h

theorem getD_set_cases {α : Type} :
    ∀ (l : List α) (i j : Nat) (a d : α),
    (l.set i a).getD j d =
      if i = j then (if j < l.length then a else d) else l.getD j d := by
  intro l
  induction l with
  | nil => intro i j a d; simp
  | cons x xs ih =>
    intro i j a d
    cases i with
    | zero =>
      cases j with
      | zero => simp
      | succ j => simp
    | succ i =>
      cases j with
      | zero => simp
      | succ j =>
        have e : ((x :: xs).set (i + 1) a).getD (j + 1) d
            = (xs.set i a).getD j d := rfl
        rw [e, ih]
        simp [Nat.succ_lt_succ_iff]

theorem listGetD_neg {α : Type} (l : List α) (i : Int) (d : α)
    (h : ¬ 0 ≤ i) : listGetD l i d = d := by
  unfold listGetD; rw [if_neg h]

theorem listGetD_nonneg {α : Type} (l : List α) (i : Int) (d : α)
    (h : 0 ≤ i) : listGetD l i d = l.getD i.toNat d := by
  unfold listGetD; rw [if_pos h]

theorem gridGet_gridSet_or (g : Grid) (r c r' c' : Int) (v : Nat) :
    gridGet (gridSet g r c v) r' c' = v ∨
    gridGet (gridSet g r c v) r' c' = gridGet g r' c' := by
  unfold gridSet
  by_cases hr : 0 ≤ r
  · rw [if_pos hr]
    unfold gridGet
    by_cases hr' : 0 ≤ r'
    · rw [listGetD_nonneg _ _ _ hr', listGetD_nonneg _ _ _ hr',
        getD_set_cases]
      by_cases hij : r.toNat = r'.toNat
      · rw [if_pos hij]
        by_cases hlen : r'.toNat < g.length
        · rw [if_pos hlen]
          have hrow : listGetD g r [] = g.getD r'.toNat [] := by
            rw [listGetD_nonneg _ _ _ hr, hij]
          rw [← hrow]
          unfold listSetZ
          by_cases hc : 0 ≤ c
          · rw [if_pos hc]
            by_cases hc' : 0 ≤ c'
            · rw [listGetD_nonneg _ _ _ hc', listGetD_nonneg _ _ _ hc',
                getD_set_cases]
              by_cases hcc : c.toNat = c'.toNat
              · rw [if_pos hcc]
                by_cases hcl : c'.toNat < (listGetD g r []).length
                · rw [if_pos hcl]; left; rfl
                · rw [if_neg hcl]; right
                  rw [List.getD_eq_default _ _ (by omega)]
              · rw [if_neg hcc]; right; rfl
            · rw [listGetD_neg _ _ _ hc', listGetD_neg _ _ _ hc']
              right; rfl
          · rw [if_neg hc]; right; rfl
        · rw [if_neg hlen]; right
          rw [List.getD_eq_default _ _ (by omega)]
      · rw [if_neg hij]; right; rfl
    · rw [listGetD_neg _ _ _ hr', listGetD_neg _ _ _ hr']; right; rfl
  · rw [if_neg hr]; right; rfl

theorem gridGet_gridSet_self (g : Grid) (r c : Int) (v : Nat) :
    gridGet (gridSet g r c v) r c = v ∨
    gridGet (gridSet g r c v) r c = 0 := by
  unfold gridSet
  by_cases hr : 0 ≤ r
  · rw [if_pos hr]
    unfold gridGet
    rw [listGetD_nonneg _ _ _ hr, getD_set_cases, if_pos rfl]
    by_cases hlen : r.toNat < g.length
    · rw [if_pos hlen]
      unfold listSetZ
      by_cases hc : 0 ≤ c
      · rw [if_pos hc, listGetD_nonneg _ _ _ hc, getD_set_cases, if_pos rfl]
        by_cases hcl : c.toNat < (listGetD g r []).length
        · rw [if_pos hcl]; left; rfl
        · rw [if_neg hcl]; right; rfl
      · rw [if_neg hc, listGetD_neg _ _ _ hc]; right; rfl
    · rw [if_neg hlen]; right
      by_cases hc : 0 ≤ c
      · rw [listGetD_nonneg _ _ _ hc]; simp
      · rw [listGetD_neg _ _ _ hc]
  · rw [if_neg hr]; right
    unfold gridGet
    rw [listGetD_neg _ _ _ hr]
    by_cases hc : 0 ≤ c
    · rw [listGetD_nonneg _ _ _ hc]; simp
    · rw [listGetD_neg _ _ _ hc]

theorem gridGet_gridSet_ne_seat (g : Grid) (r c r' c' : Int) (v : Nat)
    (hv : v ≠ SEAT) (h : gridGet g r' c' ≠ SEAT) :
    gridGet (gridSet g r c v) r' c' ≠ SEAT := by
  rcases gridGet_gridSet_or g r c r' c' v with e | e <;> rw [e]
  · exact hv
  · exact h

theorem gridGet_gridSet_self_ne_seat (g : Grid) (r c : Int) (v : Nat)
    (hv : v ≠ SEAT) : gridGet (gridSet g r c v) r c ≠ SEAT := by
  rcases gridGet_gridSet_self g r c v with e | e <;> rw [e]
  · exact hv
  · decide

theorem stepAgent_keep_fields (a : Agent) (g : Grid) :
    (stepAgent a g).1.seat = a.seat ∧ (stepAgent a g).1.willStand = a.willStand := by
  rw [stepAgent]
  split
  · exact ⟨rfl, rfl⟩
  · split
    · split
      · exact ⟨rfl, rfl⟩
      · split
        · exact ⟨rfl, rfl⟩
        · exact ⟨rfl, rfl⟩
    · exact ⟨rfl, rfl⟩

theorem stepAgent_grid_ne_seat (a : Agent) (g : Grid) (p : Int × Int)
    (h : gridGet g p.1 p.2 ≠ SEAT) :
    gridGet (stepAgent a g).2 p.1 p.2 ≠ SEAT := by
  rw [stepAgent]
  split
  · exact h
  · split
    · split
      · exact gridGet_gridSet_ne_seat _ _ _ _ _ _ (by decide) h
      · split
        · exact gridGet_gridSet_ne_seat _ _ _ _ _ _ (by decide) h
        · exact gridGet_gridSet_ne_seat _ _ _ _ _ _ (by decide) h
    · exact h

theorem stepAgent_notBoth (a : Agent) (g : Grid)
    (h : ¬(a.seated = true ∧ a.standing = true)) :
    ¬((stepAgent a g).1.seated = true ∧ (stepAgent a g).1.standing = true) := by
  rw [stepAgent]
  split
  · exact h
  · rename_i hmov
    simp only [Bool.or_eq_true, not_or] at hmov
    split
    · split
      · intro hc
        exact absurd hc.1 (by simp [hmov.1])
      · split
        · intro hc
          exact absurd hc.2 (by simp [hmov.2])
        · intro hc
          exact absurd hc.1 (by simp [hmov.1])
    · exact h

theorem stepAgent_seated_cases (a : Agent) (g : Grid)
    (hs : (stepAgent a g).1.seated = true) :
    (a.seated = true ∧ stepAgent a g = (a, g)) ∨
    (a.seated = false ∧ (stepAgent a g).1.pos = a.pos ∧
      gridGet g a.pos.1 a.pos.2 = SEAT ∧
      (stepAgent a g).2 = gridSet g a.pos.1 a.pos.2 SEATED_AGENT) := by
  rw [stepAgent] at hs ⊢
  split at hs
  · rename_i hterm
    left
    refine ⟨hs, ?_⟩
    rw [if_pos hterm]
  · rename_i hterm
    simp only [Bool.or_eq_true, not_or] at hterm
    split at hs
    · rename_i hpath
      split at hs
      · exact absurd hs (by simp [hterm.1])
      · rename_i hws
        split at hs
        · rename_i hseatcell
          right
          refine ⟨by simp [hterm.1], ?_, by simpa using hseatcell, ?_⟩
          · rw [if_neg (by simp [hterm]), hpath, if_neg hws,
              if_pos hseatcell]
          · rw [if_neg (by simp [hterm]), hpath, if_neg hws,
              if_pos hseatcell]
        · exact absurd hs (by simp [hterm.1])
    · rename_i p rest hpath
      exact absurd hs (by simp [hterm.1])

theorem moveAgents_nil_eq (g : Grid) : moveAgents [] g = ([], g) := rfl

theorem moveAgents_cons_pos (a : Agent) (rest : List Agent) (g : Grid)
    (hmov : (!a.seated && !a.standing) = true) :
    moveAgents (a :: rest) g
      = ((stepAgent a g).1 :: (moveAgents rest (stepAgent a g).2).1,
         (moveAgents rest (stepAgent a g).2).2) := by
  rw [moveAgents, if_pos hmov]

theorem moveAgents_cons_neg (a : Agent) (rest : List Agent) (g : Grid)
    (hmov : ¬ (!a.seated && !a.standing) = true) :
    moveAgents (a :: rest) g
      = (a :: (moveAgents rest g).1, (moveAgents rest g).2) := by
  rw [moveAgents, if_neg hmov]

theorem moveAgents_length : ∀ (l : List Agent) (g : Grid),
    (moveAgents l g).1.length = l.length := by
  intro l
  induction l with
  | nil => intro g; rfl
  | cons a rest ih =>
    intro g
    by_cases hmov : (!a.seated && !a.standing) = true
    · rw [moveAgents_cons_pos a rest g hmov]
      simp [ih]
    · rw [moveAgents_cons_neg a rest g hmov]
      simp [ih]

theorem moveAgents_grid_ne_seat (p : Int × Int) :
    ∀ (l : List Agent) (g : Grid), gridGet g p.1 p.2 ≠ SEAT →
    gridGet (moveAgents l g).2 p.1 p.2 ≠ SEAT := by
  intro l
  induction l with
  | nil => intro g h; exact h
  | cons a rest ih =>
    intro g h
    by_cases hmov : (!a.seated && !a.standing) = true
    · rw [moveAgents_cons_pos a rest g hmov]
      exact ih _ (stepAgent_grid_ne_seat a g p h)
    · rw [moveAgents_cons_neg a rest g hmov]
      exact ih _ h

theorem moveAgents_avoid (p : Int × Int) :
    ∀ (l : List Agent) (g : Grid), gridGet g p.1 p.2 ≠ SEAT →
    (∀ b ∈ l, b.seated = true → b.pos ≠ p) →
    ∀ b' ∈ (moveAgents l g).1, b'.seated = true → b'.pos ≠ p := by
  intro l
  induction l with
  | nil =>
    intro g _ _ b' hb'
    rw [moveAgents_nil_eq] at hb'
    exact absurd hb' (by simp)
  | cons a rest ih =>
    intro g hg hall b' hb' hseated
    by_cases hmov : (!a.seated && !a.standing) = true
    · rw [moveAgents_cons_pos a rest g hmov] at hb'
      rcases List.mem_cons.mp hb' with rfl | hb'
      · rcases stepAgent_seated_cases a g hseated with
          ⟨hsa, heq⟩ | ⟨hsa, hpos, hcl, _⟩
        · rw [heq]
          exact hall a (List.mem_cons_self a rest) hsa
        · rw [hpos]
          intro hc
          exact hg (by rw [← hc]; exact hcl)
      · refine ih (stepAgent a g).2 (stepAgent_grid_ne_seat a g p hg)
          ?_ b' hb' hseated
        intro b hb hbs
        exact hall b (List.mem_cons_of_mem a hb) hbs
    · rw [moveAgents_cons_neg a rest g hmov] at hb'
      rcases List.mem_cons.mp hb' with rfl | hb'
      · exact hall b' (List.mem_cons_self b' rest) hseated
      · exact ih g hg (fun b hb => hall b (List.mem_cons_of_mem a hb))
          b' hb' hseated

theorem moveAgents_SInv : ∀ (l : List Agent) (g : Grid),
    (∀ a ∈ l, a.seated = true → gridGet g a.pos.1 a.pos.2 ≠ SEAT) →
    l.Pairwise (fun a b => a.seated = true → b.seated = true → a.pos ≠ b.pos) →
    (∀ a ∈ (moveAgents l g).1, a.seated = true →
      gridGet (moveAgents l g).2 a.pos.1 a.pos.2 ≠ SEAT) ∧
    (moveAgents l g).1.Pairwise
      (fun a b => a.seated = true → b.seated = true → a.pos ≠ b.pos) := by
  intro l
  induction l with
  | nil =>
    intro g _ _
    constructor
    · intro a ha
      rw [moveAgents_nil_eq] at ha
      exact absurd ha (by simp)
    · rw [moveAgents_nil_eq]
      exact List.Pairwise.nil
  | cons a rest ih =>
    intro g hcell hpw
    rw [List.pairwise_cons] at hpw
    obtain ⟨hpa, hpwrest⟩ := hpw
    have hcellrest : ∀ b ∈ rest, b.seated = true →
        gridGet g b.pos.1 b.pos.2 ≠ SEAT :=
      fun b hb hbs => hcell b (List.mem_cons_of_mem a hb) hbs
    by_cases hmov : (!a.seated && !a.standing) = true
    · rw [moveAgents_cons_pos a rest g hmov]
      have hrest2 : ∀ b ∈ rest, b.seated = true →
          gridGet (stepAgent a g).2 b.pos.1 b.pos.2 ≠ SEAT :=
        fun b hb hbs => stepAgent_grid_ne_seat a g b.pos (hcellrest b hb hbs)
      obtain ⟨ih1, ih2⟩ := ih (stepAgent a g).2 hrest2 hpwrest
      have hheadcell : (stepAgent a g).1.seated = true →
          gridGet (stepAgent a g).2 (stepAgent a g).1.pos.1
            (stepAgent a g).1.pos.2 ≠ SEAT := by
        intro hs
        rcases stepAgent_seated_cases a g hs with
          ⟨hsa, heq⟩ | ⟨hsa, hpos, hcl, hgr⟩
        · rw [heq]
          exact hcell a (List.mem_cons_self a rest) hsa
        · rw [hpos, hgr]
          exact gridGet_gridSet_self_ne_seat g a.pos.1 a.pos.2 SEATED_AGENT
            (by decide)
      have hheadavoid : (stepAgent a g).1.seated = true →
          ∀ b ∈ rest, b.seated = true → b.pos ≠ (stepAgent a g).1.pos := by
        intro hs b hb hbs
        rcases stepAgent_seated_cases a g hs with
          ⟨hsa, heq⟩ | ⟨hsa, hpos, hcl, _⟩
        · rw [heq]
          exact fun hc => (hpa b hb hsa hbs) hc.symm
        · rw [hpos]
          intro hc
          exact (hcellrest b hb hbs) (by rw [hc]; exact hcl)
      constructor
      · intro x hx hxs
        rcases List.mem_cons.mp hx with hxa | hx
        · rw [hxa] at hxs ⊢
          exact moveAgents_grid_ne_seat (stepAgent a g).1.pos rest
            (stepAgent a g).2 (hheadcell hxs)
        · exact ih1 x hx hxs
      · rw [List.pairwise_cons]
        refine ⟨?_, ih2⟩
        intro b' hb' hs hbs'
        exact (moveAgents_avoid (stepAgent a g).1.pos rest (stepAgent a g).2
          (hheadcell hs) (hheadavoid hs) b' hb' hbs').symm
    · rw [moveAgents_cons_neg a rest g hmov]
      obtain ⟨ih1, ih2⟩ := ih g hcellrest hpwrest
      constructor
      · intro x hx hxs
        rcases List.mem_cons.mp hx with hxa | hx
        · rw [hxa] at hxs ⊢
          exact moveAgents_grid_ne_seat a.pos rest g
            (hcell a (List.mem_cons_self a rest) hxs)
        · exact ih1 x hx hxs
      · rw [List.pairwise_cons]
        refine ⟨?_, ih2⟩
        intro b' hb' hs hbs'
        refine (moveAgents_avoid a.pos rest g
          (hcell a (List.mem_cons_self a rest) hs) ?_ b' hb' hbs').symm
        intro b hb hbs
        exact fun hc => (hpa b hb hs hbs) hc.symm

theorem moveAgents_fields : ∀ (l : List Agent) (g : Grid),
    List.Forall₂ (fun x y => y.seat = x.seat ∧ y.willStand = x.willStand)
      l (moveAgents l g).1 := by
  intro l
  induction l with
  | nil => intro g; exact List.Forall₂.nil
  | cons a rest ih =>
    intro g
    by_cases hmov : (!a.seated && !a.standing) = true
    · rw [moveAgents_cons_pos a rest g hmov]
      exact List.Forall₂.cons
        ⟨(stepAgent_keep_fields a g).1, (stepAgent_keep_fields a g).2⟩ (ih _)
    · rw [moveAgents_cons_neg a rest g hmov]
      exact List.Forall₂.cons ⟨rfl, rfl⟩ (ih g)

theorem moveAgents_notBoth : ∀ (l : List Agent) (g : Grid),
    (∀ a ∈ l, ¬(a.seated = true ∧ a.standing = true)) →
    ∀ a' ∈ (moveAgents l g).1, ¬(a'.seated = true ∧ a'.standing = true) := by
  intro l
  induction l with
  | nil =>
    intro g _ a' ha'
    rw [moveAgents_nil_eq] at ha'
    exact absurd ha' (by simp)
  | cons a rest ih =>
    intro g h a' ha'
    by_cases hmov : (!a.seated && !a.standing) = true
    · rw [moveAgents_cons_pos a rest g hmov] at ha'
      rcases List.mem_cons.mp ha' with rfl | ha'
      · exact stepAgent_notBoth a g (h a (List.mem_cons_self a rest))
      · exact ih _ (fun b hb => h b (List.mem_cons_of_mem a hb)) a' ha'
    · rw [moveAgents_cons_neg a rest g hmov] at ha'
      rcases List.mem_cons.mp ha' with rfl | ha'
      · exact h a' (List.mem_cons_self a' rest)
      · exact ih g (fun b hb => h b (List.mem_cons_of_mem a hb)) a' ha'

theorem forall₂_mem_right {α β : Type} {S : α → β → Prop} :
    ∀ {l : List α} {l' : List β}, List.Forall₂ S l l' →
    ∀ b' ∈ l', ∃ b ∈ l, S b b' := by
  intro l l' hf
  induction hf with
  | nil => intro b' hb'; exact absurd hb' (by simp)
  | cons hS hf ihf =>
    intro b' hb'
    rcases List.mem_cons.mp hb' with rfl | hb'
    · exact ⟨_, List.mem_cons_self _ _, hS⟩
    · obtain ⟨b, hb, hSb⟩ := ihf b' hb'
      exact ⟨b, List.mem_cons_of_mem _ hb, hSb⟩

theorem pairwise_of_forall₂ {α β : Type} {S : α → β → Prop}
    {R : α → α → Prop} {T : β → β → Prop}
    (hcomp : ∀ a b a' b', S a a' → S b b' → R a b → T a' b') :
    ∀ {l : List α} {l' : List β}, List.Forall₂ S l l' →
    l.Pairwise R → l'.Pairwise T := by
  intro l l' hf
  induction hf with
  | nil => intro _; exact List.Pairwise.nil
  | cons hS hf ihf =>
    intro hp
    rw [List.pairwise_cons] at hp ⊢
    refine ⟨?_, ihf hp.2⟩
    intro b' hb'
    obtain ⟨b, hb, hSb⟩ := forall₂_mem_right hf b' hb'
    exact hcomp _ b _ b' hS hSb (hp.1 b hb)

theorem count_partition : ∀ (l : List Agent),
    (∀ a ∈ l, ¬(a.seated = true ∧ a.standing = true)) →
    countSeated l + countStanding l + countMoving l = (l.length : Int) := by
  intro l
  induction l with
  | nil => intro _; rfl
  | cons a rest ih =>
    intro h
    have hrest := ih (fun b hb => h b (List.mem_cons_of_mem a hb))
    have ha := h a (List.mem_cons_self a rest)
    unfold countSeated countStanding countMoving at hrest ⊢
    cases hs : a.seated <;> cases ht : a.standing
    · simp [List.filter_cons, hs, ht]
      omega
    · simp [List.filter_cons, hs, ht]
      omega
    · simp [List.filter_cons, hs, ht]
      omega
    · exact absurd ⟨hs, ht⟩ ha

theorem mkSeatAgent_spec (spawn : Int × Int) (blk : Int) (seat : Int × Int)
    (assigned : List (Int × Int)) (cfg : SimConfig)
    (b2c : List (List (List Int))) (f : Nat → ℚ) (i : Nat) :
    (mkSeatAgent spawn blk seat assigned cfg b2c f i).1.seated = false ∧
    (mkSeatAgent spawn blk seat assigned cfg b2c f i).1.standing = false ∧
    (mkSeatAgent spawn blk seat assigned cfg b2c f i).1.willStand = false ∧
    (mkSeatAgent spawn blk seat assigned cfg b2c f i).1.seat = seat ∧
    (mkSeatAgent spawn blk seat assigned cfg b2c f i).2.1
      = (if cfg.FEATURE_ASSIGNED_SEATS then assigned.insert seat else assigned) :=
  ⟨rfl, rfl, rfl, rfl, rfl⟩

theorem mkAgentAux_spec (g : Grid) (spawn : Int × Int)
    (assigned : List (Int × Int)) (seatBlocks : List (Int × Int))
    (b2c : List (List (List Int))) (cfg : SimConfig) (blk : Int) (i1 : Nat)
    (f : Nat → ℚ) (r : Agent × List (Int × Int) × Nat)
    (hr : r = (match pickSeatInBlock g blk assigned seatBlocks cfg.BACK_PREF
        cfg.AISLE_PREF cfg.SOCIAL_DISTANCE DEFAULT_ROW_THRESHOLD f i1 with
      | (some seat, i2) => mkSeatAgent spawn blk seat assigned cfg b2c f i2
      | (none, i2) =>
        match pickSeatAnyBlock g assigned seatBlocks cfg.BACK_PREF
            cfg.AISLE_PREF cfg.SOCIAL_DISTANCE DEFAULT_ROW_THRESHOLD f i2 with
        | (some (b, s), i3) => mkSeatAgent spawn b s assigned cfg b2c f i3
        | (none, i3) =>
          ({ pos := spawn, seated := false, standing := false,
             willStand := true, block := blk,
             seat := (findStandingPosition g f i3).1,
             corridor := cfg.CORRIDOR_WIDTH, row0 := 19,
             path := computeSimplePath spawn cfg.CORRIDOR_WIDTH
               (findStandingPosition g f i3).1 19 },
           assigned, (findStandingPosition g f i3).2))) :
    r.1.seated = false ∧ r.1.standing = false ∧
    (cfg.FEATURE_ASSIGNED_SEATS = false → r.2.1 = assigned) ∧
    (r.1.willStand = true → r.2.1 = assigned) ∧
    (r.1.willStand = false → r.1.seat ∉ assigned ∧
      (cfg.FEATURE_ASSIGNED_SEATS = true →
        r.2.1 = assigned.insert r.1.seat)) ∧
    (∀ x ∈ assigned, x ∈ r.2.1) := by
  rcases e1 : pickSeatInBlock g blk assigned seatBlocks cfg.BACK_PREF
      cfg.AISLE_PREF cfg.SOCIAL_DISTANCE DEFAULT_ROW_THRESHOLD f i1 with ⟨o, i2⟩
  rw [e1] at hr
  cases o with
  | some seat =>
    have hr2 : r = mkSeatAgent spawn blk seat assigned cfg b2c f i2 := hr
    subst hr2
    obtain ⟨h1, h2, h3, h4, h5⟩ :=
      mkSeatAgent_spec spawn blk seat assigned cfg b2c f i2
    refine ⟨h1, h2, ?_, ?_, ?_, ?_⟩
    · intro hf
      rw [h5, if_neg (by simp [hf])]
    · intro hws
      rw [h3] at hws
      exact absurd hws (by simp)
    · intro _
      refine ⟨?_, ?_⟩
      · rw [h4]
        exact pickSeatInBlock_not_mem g blk assigned seatBlocks cfg.BACK_PREF
          cfg.AISLE_PREF cfg.SOCIAL_DISTANCE DEFAULT_ROW_THRESHOLD f i1 seat i2 e1
      · intro hf
        rw [h5, if_pos (by simp [hf]), h4]
    · intro x hx
      rw [h5]
      split
      · exact List.mem_insert_of_mem hx
      · exact hx
  | none =>
    have hr1 : r = (match pickSeatAnyBlock g assigned seatBlocks cfg.BACK_PREF
        cfg.AISLE_PREF cfg.SOCIAL_DISTANCE DEFAULT_ROW_THRESHOLD f i2 with
      | (some (b, s), i3) => mkSeatAgent spawn b s assigned cfg b2c f i3
      | (none, i3) =>
        ({ pos := spawn, seated := false, standing := false,
           willStand := true, block := blk,
           seat := (findStandingPosition g f i3).1,
           corridor := cfg.CORRIDOR_WIDTH, row0 := 19,
           path := computeSimplePath spawn cfg.CORRIDOR_WIDTH
             (findStandingPosition g f i3).1 19 },
         assigned, (findStandingPosition g f i3).2)) := hr
    clear hr
    rcases e2 : pickSeatAnyBlock g assigned seatBlocks cfg.BACK_PREF
        cfg.AISLE_PREF cfg.SOCIAL_DISTANCE DEFAULT_ROW_THRESHOLD f i2
      with ⟨o2, i3⟩
    rw [e2] at hr1
    cases o2 with
    | some bs =>
      rcases bs with ⟨b, sp⟩
      have hr2 : r = mkSeatAgent spawn b sp assigned cfg b2c f i3 := hr1
      subst hr2
      obtain ⟨h1, h2, h3, h4, h5⟩ :=
        mkSeatAgent_spec spawn b sp assigned cfg b2c f i3
      refine ⟨h1, h2, ?_, ?_, ?_, ?_⟩
      · intro hf
        rw [h5, if_neg (by simp [hf])]
      · intro hws
        rw [h3] at hws
        exact absurd hws (by simp)
      · intro _
        refine ⟨?_, ?_⟩
        · rw [h4]
          exact pickSeatAnyBlock_not_mem g assigned seatBlocks cfg.BACK_PREF
            cfg.AISLE_PREF cfg.SOCIAL_DISTANCE DEFAULT_ROW_THRESHOLD f i2
            b sp i3 e2
        · intro hf
          rw [h5, if_pos (by simp [hf]), h4]
      · intro x hx
        rw [h5]
        split
        · exact List.mem_insert_of_mem hx
        · exact hx
    | none =>
      have hr2 : r =
          ({ pos := spawn, seated := false, standing := false,
             willStand := true, block := blk,
             seat := (findStandingPosition g f i3).1,
             corridor := cfg.CORRIDOR_WIDTH, row0 := 19,
             path := computeSimplePath spawn cfg.CORRIDOR_WIDTH
               (findStandingPosition g f i3).1 19 },
           assigned, (findStandingPosition g f i3).2) := hr1
      subst hr2
      refine ⟨rfl, rfl, fun _ => rfl, fun _ => rfl, ?_, fun x hx => hx⟩
      intro hws
      simp at hws

theorem mkAgent_spec (g : Grid) (spawn : Int × Int)
    (assigned : List (Int × Int)) (seatBlocks : List (Int × Int))
    (b2c : List (List (List Int))) (cfg : SimConfig)
    (gates : List (Int × Int)) (f : Nat → ℚ) (i : Nat) :
    (mkAgent g spawn assigned seatBlocks b2c cfg gates f i).1.seated = false ∧
    (mkAgent g spawn assigned seatBlocks b2c cfg gates f i).1.standing = false ∧
    (cfg.FEATURE_ASSIGNED_SEATS = false →
      (mkAgent g spawn assigned seatBlocks b2c cfg gates f i).2.1 = assigned) ∧
    ((mkAgent g spawn assigned seatBlocks b2c cfg gates f i).1.willStand = true →
      (mkAgent g spawn assigned seatBlocks b2c cfg gates f i).2.1 = assigned) ∧
    ((mkAgent g spawn assigned seatBlocks b2c cfg gates f i).1.willStand = false →
      (mkAgent g spawn assigned seatBlocks b2c cfg gates f i).1.seat ∉ assigned ∧
      (cfg.FEATURE_ASSIGNED_SEATS = true →
        (mkAgent g spawn assigned seatBlocks b2c cfg gates f i).2.1
          = assigned.insert
            (mkAgent g spawn assigned seatBlocks b2c cfg gates f i).1.seat)) ∧
    (∀ x ∈ assigned,
      x ∈ (mkAgent g spawn assigned seatBlocks b2c cfg gates f i).2.1) :=
  mkAgentAux_spec g spawn assigned seatBlocks b2c cfg _ _ f
    (mkAgent g spawn assigned seatBlocks b2c cfg gates f i) rfl


theorem spawnCore_AccInv (cfg cfg2 : SimConfig)
    (hfl : cfg2.FEATURE_ASSIGNED_SEATS = cfg.FEATURE_ASSIGNED_SEATS)
    (sb : List (Int × Int)) (b2c : List (List (List Int)))
    (gates : List (Int × Int)) (f : Nat → ℚ) (acc : SpawnAcc)
    (gate : Int × Int) (h : AccInv cfg acc) :
    AccInv cfg
      { agents := acc.agents
          ++ [(mkAgent acc.grid gate acc.assigned sb b2c cfg2 gates f acc.rngIx).1],
        spawned := acc.spawned + 1,
        grid := if (mkAgent acc.grid gate acc.assigned sb b2c cfg2 gates f
              acc.rngIx).1.willStand then
            gridSet acc.grid
              (mkAgent acc.grid gate acc.assigned sb b2c cfg2 gates f
                acc.rngIx).1.seat.1
              (mkAgent acc.grid gate acc.assigned sb b2c cfg2 gates f
                acc.rngIx).1.seat.2 STANDING
          else acc.grid,
        assigned := (mkAgent acc.grid gate acc.assigned sb b2c cfg2 gates f
          acc.rngIx).2.1,
        occupied := acc.occupied ++ [gate],
        rngIx := (mkAgent acc.grid gate acc.assigned sb b2c cfg2 gates f
          acc.rngIx).2.2 } := by
  obtain ⟨h1, h2, h3, h4, h5, h6⟩ := h
  obtain ⟨m1, m2, m3, m4, m5, m6⟩ :=
    mkAgent_spec acc.grid gate acc.assigned sb b2c cfg2 gates f acc.rngIx
  refine ⟨?_, ?_, ?_, ?_, ?_, ?_⟩
  · intro x hx
    rcases List.mem_append.mp hx with hx | hx
    · exact h1 x hx
    · rw [List.mem_singleton.mp hx]
      intro hc
      rw [m1] at hc
      exact absurd hc.1 (by simp)
  · simp only [List.length_append, List.length_singleton]
    push_cast
    omega
  · intro x hx hxs
    have hcell : gridGet acc.grid x.pos.1 x.pos.2 ≠ SEAT := by
      rcases List.mem_append.mp hx with hx | hx
      · exact h3 x hx hxs
      · rw [List.mem_singleton.mp hx] at hxs
        rw [m1] at hxs
        exact absurd hxs (by simp)
    split
    · exact gridGet_gridSet_ne_seat _ _ _ _ _ _ (by decide) hcell
    · exact hcell
  · rw [List.pairwise_append]
    refine ⟨h4, List.pairwise_singleton _ _, ?_⟩
    intro x hx y hy
    rw [List.mem_singleton.mp hy]
    intro _ hys
    rw [m1] at hys
    exact absurd hys (by simp)
  · intro hft
    have hft2 : cfg2.FEATURE_ASSIGNED_SEATS = true := by rw [hfl]; exact hft
    obtain ⟨p1, p2⟩ := h5 hft
    constructor
    · intro x hx hxw
      rcases List.mem_append.mp hx with hx | hx
      · exact m6 x.seat (p1 x hx hxw)
      · rw [List.mem_singleton.mp hx] at hxw ⊢
        obtain ⟨hnm, hins⟩ := m5 hxw
        rw [hins hft2]
        exact List.mem_insert_self _ _
    · rw [List.pairwise_append]
      refine ⟨p2, List.pairwise_singleton _ _, ?_⟩
      intro x hx y hy
      rw [List.mem_singleton.mp hy]
      intro hxw hyw
      obtain ⟨hnm, _⟩ := m5 hyw
      intro hcontra
      exact hnm (hcontra ▸ p1 x hx hxw)
  · intro hff
    have hff2 : cfg2.FEATURE_ASSIGNED_SEATS = false := by rw [hfl]; exact hff
    rw [m3 hff2]
    exact h6 hff


theorem spawnStep_eq (cfg : SimConfig) (sb : List (Int × Int))
    (b2c : List (List (List Int))) (gates : List (Int × Int))
    (f : Nat → ℚ) (acc : SpawnAcc) (gate : Int × Int) :
    spawnStep cfg sb b2c gates f acc gate =
    if acc.spawned < cfg.NUM_AGENTS ∧ ¬ acc.occupied.contains gate then
      { agents := acc.agents ++ [(mkAgent acc.grid gate acc.assigned sb b2c
          (arrivalCfg cfg acc.spawned) gates f acc.rngIx).1],
        spawned := acc.spawned + 1,
        grid := if (mkAgent acc.grid gate acc.assigned sb b2c
              (arrivalCfg cfg acc.spawned) gates f acc.rngIx).1.willStand then
            gridSet acc.grid
              (mkAgent acc.grid gate acc.assigned sb b2c
                (arrivalCfg cfg acc.spawned) gates f acc.rngIx).1.seat.1
              (mkAgent acc.grid gate acc.assigned sb b2c
                (arrivalCfg cfg acc.spawned) gates f acc.rngIx).1.seat.2
              STANDING
          else acc.grid,
        assigned := (mkAgent acc.grid gate acc.assigned sb b2c
          (arrivalCfg cfg acc.spawned) gates f acc.rngIx).2.1,
        occupied := acc.occupied ++ [gate],
        rngIx := (mkAgent acc.grid gate acc.assigned sb b2c
          (arrivalCfg cfg acc.spawned) gates f acc.rngIx).2.2 }
    else acc := rfl

theorem spawnStep_AccInv (cfg : SimConfig) (sb : List (Int × Int))
    (b2c : List (List (List Int))) (gates : List (Int × Int))
    (f : Nat → ℚ) (acc : SpawnAcc) (gate : Int × Int)
    (h : AccInv cfg acc) :
    AccInv cfg (spawnStep cfg sb b2c gates f acc gate) := by
  rw [spawnStep_eq]
  split
  · exact spawnCore_AccInv cfg (arrivalCfg cfg acc.spawned) rfl
      sb b2c gates f acc gate h
  · exact h

theorem foldl_AccInv (cfg : SimConfig) (sb : List (Int × Int))
    (b2c : List (List (List Int))) (gates : List (Int × Int))
    (f : Nat → ℚ) :
    ∀ (gs : List (Int × Int)) (acc : SpawnAcc), AccInv cfg acc →
    AccInv cfg (gs.foldl (spawnStep cfg sb b2c gates f) acc) := by
  intro gs
  induction gs with
  | nil => intro acc h; exact h
  | cons gte rest ih =>
    intro acc h
    exact ih _ (spawnStep_AccInv cfg sb b2c gates f acc gte h)


theorem initSim_Inv (cfg : SimConfig) : Inv cfg (initSim cfg) := by
  refine ⟨?_, ?_, ?_, ?_, ?_, ?_⟩
  · intro a ha
    exact absurd ha (by simp [initSim])
  · simp [initSim]
  · intro a ha
    exact absurd ha (by simp [initSim])
  · simp [initSim]
  · intro _
    constructor
    · intro a ha
      exact absurd ha (by simp [initSim])
    · simp [initSim]
  · intro _
    simp [initSim]

theorem update_Inv (cfg : SimConfig) (f : Nat → ℚ) (s : SimState)
    (h : Inv cfg s) : Inv cfg (update cfg f s) := by
  rw [update]
  split
  · exact h
  · obtain ⟨h1, h2, h3, h4, h5, h6⟩ := h
    have hacc := foldl_AccInv cfg s.seatBlocks s.blockToCorridorCells
      s.gates f s.gates
      ⟨s.agents, s.spawned, s.grid, s.assigned,
        (s.agents.filter (fun a => !a.seated && !a.standing)).map
          (fun a => a.pos), s.rngIx⟩
      ⟨h1, h2, h3, h4, h5, h6⟩
    obtain ⟨a1, a2, a3, a4, a5, a6⟩ := hacc
    obtain ⟨s1, s2⟩ := moveAgents_SInv _ _ a3 a4
    refine ⟨?_, ?_, ?_, ?_, ?_, ?_⟩
    · exact moveAgents_notBoth _ _ a1
    · rw [moveAgents_length]
      exact a2
    · exact s1
    · exact s2
    · intro hft
      obtain ⟨b1, b2⟩ := a5 hft
      constructor
      · intro x hx hxw
        obtain ⟨y, hy, hSy⟩ := forall₂_mem_right (moveAgents_fields _ _) x hx
        rw [hSy.1]
        exact b1 y hy (by rw [← hSy.2]; exact hxw)
      · refine pairwise_of_forall₂ ?_ (moveAgents_fields _ _) b2
        intro a b a' b' hS1 hS2 hR ha' hb'
        rw [hS1.1, hS2.1]
        exact hR (by rw [← hS1.2]; exact ha') (by rw [← hS2.2]; exact hb')
    · intro hff
      exact a6 hff

theorem runSim_Inv (cfg : SimConfig) (f : Nat → ℚ) :
    ∀ n : Nat, Inv cfg (runSim cfg f n) := by
  intro n
  induction n with
  | zero => exact initSim_Inv cfg
  | succ n ih =>
    have e : runSim cfg f (n + 1) = update cfg f (runSim cfg f n) := by
      rw [runSim, runSim, Function.iterate_succ_apply']
    rw [e]
    exact update_Inv cfg f _ ih


/-- C1: at the end of every tick of every run, seated + standing + moving
agents equal the spawned counter, and no agent is both seated and
standing. -/
theorem c1_conservation (cfg : SimConfig) (f : Nat → ℚ) (n : Nat) :
    countSeated (runSim cfg f n).agents + countStanding (runSim cfg f n).agents
      + countMoving (runSim cfg f n).agents = (runSim cfg f n).spawned ∧
    ∀ a ∈ (runSim cfg f n).agents, ¬(a.seated = true ∧ a.standing = true) := by
  obtain ⟨h1, h2, -, -, -, -⟩ := runSim_Inv cfg f n
  exact ⟨by rw [count_partition _ h1]; exact h2, h1⟩

/-- C2 amended: in every reachable state no two seated agents report the
same grid position (standing agents can collide, see the
counterexample). -/
theorem c2_amended (cfg : SimConfig) (f : Nat → ℚ) (n : Nat) :
    (runSim cfg f n).agents.Pairwise
      (fun a b => a.seated = true → b.seated = true → a.pos ≠ b.pos) :=
  (runSim_Inv cfg f n).2.2.2.1

/-- C7: with assigned seats on, a seat returned by pickSeatInBlock against
the current reserved set is never already reserved, every seat-bound agent
holds a seat recorded in the reserved set since construction, and no two
seat-bound agents were ever given the same seat. -/
theorem c7_assignedSeats (cfg : SimConfig)
    (hflag : cfg.FEATURE_ASSIGNED_SEATS = true) (f : Nat → ℚ) (n : Nat) :
    (∀ (blk : Int) (sb : List (Int × Int)) (bp ap sd : ℚ) (rt : Int)
       (i : Nat) (seat : Int × Int) (j : Nat),
       pickSeatInBlock (runSim cfg f n).grid blk (runSim cfg f n).assigned
         sb bp ap sd rt f i = (some seat, j) →
       seat ∉ (runSim cfg f n).assigned) ∧
    (∀ a ∈ (runSim cfg f n).agents, a.willStand = false →
      a.seat ∈ (runSim cfg f n).assigned) ∧
    (runSim cfg f n).agents.Pairwise
      (fun a b => a.willStand = false → b.willStand = false →
        a.seat ≠ b.seat) := by
  obtain ⟨-, -, -, -, h5, -⟩ := runSim_Inv cfg f n
  obtain ⟨hA, hB⟩ := h5 hflag
  exact ⟨fun blk sb bp ap sd rt i seat j h =>
    pickSeatInBlock_not_mem _ blk _ sb bp ap sd rt f i seat j h, hA, hB⟩

/-- C10: with assigned seats off, the reserved-seat set stays empty in
every reachable state, so the assigned check in seat selection never
excludes a seat. -/
theorem c10_assignedEmpty (cfg : SimConfig)
    (hflag : cfg.FEATURE_ASSIGNED_SEATS = false) (f : Nat → ℚ) (n : Nat) :
    (runSim cfg f n).assigned = [] ∧
    ∀ seat : Int × Int, seat ∉ (runSim cfg f n).assigned := by
  have h := (runSim_Inv cfg f n).2.2.2.2.2 hflag
  refine ⟨h, fun seat hs => ?_⟩
  rw [h] at hs
  exact absurd hs (by simp)



/-- C7 witness: the theorem applied at the assigned-seats configuration
after one tick. -/
theorem c7_witness :
    cfg7.FEATURE_ASSIGNED_SEATS = true ∧
    ((∀ (blk : Int) (sb : List (Int × Int)) (bp ap sd : ℚ) (rt : Int)
        (i : Nat) (seat : Int × Int) (j : Nat),
        pickSeatInBlock (runSim cfg7 zeroStream 1).grid blk
          (runSim cfg7 zeroStream 1).assigned sb bp ap sd rt zeroStream i
          = (some seat, j) → seat ∉ (runSim cfg7 zeroStream 1).assigned) ∧
      (∀ a ∈ (runSim cfg7 zeroStream 1).agents, a.willStand = false →
        a.seat ∈ (runSim cfg7 zeroStream 1).assigned) ∧
      (runSim cfg7 zeroStream 1).agents.Pairwise
        (fun a b => a.willStand = false → b.willStand = false →
          a.seat ≠ b.seat)) :=
  ⟨rfl, c7_assignedSeats cfg7 rfl zeroStream 1⟩

/-- C10 witness: the theorem applied at the assigned-seats-off
configuration after one tick. -/
theorem c10_witness :
    cfg10.FEATURE_ASSIGNED_SEATS = false ∧
    ((runSim cfg10 zeroStream 1).assigned = [] ∧
     ∀ seat : Int × Int, seat ∉ (runSim cfg10 zeroStream 1).assigned) :=
  ⟨rfl, c10_assignedEmpty cfg10 rfl zeroStream 1⟩

set_option maxRecDepth 40000 in
theorem buildGrid_cfgC2 : buildGrid cfgC2 = gridC2 := by
  have hsb : generateSeatBlocks cfgC2.COLS cfgC2.NUM_BLOCKS cfgC2.CORRIDOR_WIDTH
      = sbC2 := by decide
  have hcs : generateCorridorSegments cfgC2.COLS sbC2 cfgC2.CORRIDOR_WIDTH
      = csC2 := by decide
  have hsplit : rangeZ 0 (cfgC2.ROWS - 1)
      = rangeZ 0 6 ++ (rangeZ 7 13 ++ rangeZ 14 19) := by decide
  have h1 : seatFill sbC2
      (List.replicate cfgC2.ROWS.toNat (List.replicate cfgC2.COLS.toNat EMPTY))
        = seatsLit := by decide
  have h2 : (rangeZ 0 6).foldl (corridorFillRow csC2) seatsLit = corrLitA := by
    decide
  have h3 : (rangeZ 7 13).foldl (corridorFillRow csC2) corrLitA = corrLitB := by
    decide
  have h4 : (GATE_POSITIONS.filter (fun c => c < cfgC2.COLS)).foldl
      (fun g c => gridSet g (cfgC2.ROWS - 1) c GATE)
      ((rangeZ 14 19).foldl (corridorFillRow csC2) corrLitB) = gridC2 := by
    decide
  simp only [buildGrid, hsb, hcs, hsplit, List.foldl_append, h1, h2, h3]
  exact h4

set_option maxRecDepth 40000 in
theorem initSim_cfgC2 : initSim cfgC2 = s0C2 := by
  simp only [initSim]
  rw [buildGrid_cfgC2]
  decide

set_option maxRecDepth 40000 in
theorem c2_counterexample :
    ((runSim cfgC2 zeroStream 25).agents.map
        (fun a => (a.pos, a.seated, a.standing)) =
      [((6, 2), true, false), ((6, 2), false, true)]) ∧
    ¬ TerminalDistinct (runSim cfgC2 zeroStream 25) := by
  have hrun : runSim cfgC2 zeroStream 25
      = (update cfgC2 zeroStream)^[25] s0C2 := by
    rw [runSim, initSim_cfgC2]
  rw [hrun]
  constructor
  · decide
  · decide

end ConfSeating
